import Mathlib

/-!
# Verification of the dynamodb-relational-store key/identifier core

A shallow embedding of the URN validation utilities (`src/utils/urn-validator.ts`),
timestamp utilities (`src/utils/timestamps.ts`), key-generation utilities
(`src/utils/key-generation.ts`) and the record factories (`src/factories/resource.ts`,
`src/factories/relationships.ts`) of the library, together with proofs of the
specification's testable properties.

JavaScript strings are modelled as `List Char`; functions that `throw` are modelled
as `Except String` with the thrown message (interpolated values are omitted from
the messages, keeping the fixed descriptive text of the source); the ambient
clock (`getCurrentTimestamp`) and id generator (`generateUuidV7`) are threaded
through the factories as explicit parameters, following the spec's design note
that the clock/rng dependency is injectable.
-/

deriving instance DecidableEq for Except

namespace DynamoRelStore

/-- The characters of a string literal, the `List Char` view of a JS string. -/
def str (s : String) : List Char := s.data

/-! ## JavaScript string primitives -/

/-- The characters removed by `String.prototype.trim`: ECMAScript WhiteSpace
and LineTerminator code points. -/
def isJsSpace (c : Char) : Bool :=
  c == ' ' || c == '\t' || c == '\n' || c == '\r' || c == '\x0b' || c == '\x0c' ||
  c == '\u00a0' || c == '\u1680' || c == '\u2000' || c == '\u2001' || c == '\u2002' ||
  c == '\u2003' || c == '\u2004' || c == '\u2005' || c == '\u2006' || c == '\u2007' ||
  c == '\u2008' || c == '\u2009' || c == '\u200a' || c == '\u2028' || c == '\u2029' ||
  c == '\u202f' || c == '\u205f' || c == '\u3000' || c == '\ufeff'

/-- `s.trim()`: drop leading and trailing JS whitespace. -/
def trim (cs : List Char) : List Char :=
  ((cs.dropWhile isJsSpace).reverse.dropWhile isJsSpace).reverse

/-! ## Character classes used by the regular expressions of the source -/

/-- `[0-9]` (ASCII). -/
def isAsciiDigit (c : Char) : Bool := 48 ≤ c.toNat && c.toNat ≤ 57

/-- `[0-9a-f]` under the `/i` flag: a hexadecimal digit of either case. -/
def isHexDigitI (c : Char) : Bool :=
  (48 ≤ c.toNat && c.toNat ≤ 57) || (97 ≤ c.toNat && c.toNat ≤ 102) ||
  (65 ≤ c.toNat && c.toNat ≤ 70)

/-- `[89ab]` under the `/i` flag: the UUID variant nibble. -/
def isUuidVariantI (c : Char) : Bool :=
  c == '8' || c == '9' || c == 'a' || c == 'b' || c == 'A' || c == 'B'

/-- Consume exactly `n` hexadecimal digits (case-insensitive), returning the rest. -/
def hexTake : Nat → List Char → Option (List Char)
  | 0, cs => some cs
  | _ + 1, [] => none
  | n + 1, c :: cs => if isHexDigitI c then hexTake n cs else none

/-- `UUID_V7_PATTERN` of `urn-validator.ts`:
`/^[0-9a-f]{8}-[0-9a-f]{4}-7[0-9a-f]{3}-[89ab][0-9a-f]{3}-[0-9a-f]{12}$/i`,
as an anchored sequential matcher. -/
def uuidV7Match (cs : List Char) : Bool :=
  match hexTake 8 cs with
  | some ('-' :: r1) =>
    match hexTake 4 r1 with
    | some ('-' :: '7' :: r2) =>
      match hexTake 3 r2 with
      | some ('-' :: c :: r3) =>
        if isUuidVariantI c then
          match hexTake 3 r3 with
          | some ('-' :: r4) => hexTake 12 r4 == some []
          | _ => false
        else false
      | _ => false
    | _ => false
  | _ => false

/-! ## URN parsing (`src/utils/urn-validator.ts`) -/

/-- `URN_PATTERN = /^urn:([^:]*):([^:]*)::([^:]*)$/`.  Because each group is a
maximal run of non-colon characters and the separators are literal colons, the
regex match is deterministic: the captured groups are recovered by splitting at
the first colon twice and requiring a literal `::` before the colon-free tail. -/
def urnMatch (cs : List Char) : Option (List Char × List Char × List Char) :=
  match cs with
  | 'u' :: 'r' :: 'n' :: ':' :: rest =>
    let d := rest.takeWhile (· != ':')
    match rest.dropWhile (· != ':') with
    | ':' :: r2 =>
      let rt := r2.takeWhile (· != ':')
      match r2.dropWhile (· != ':') with
      | ':' :: ':' :: rid => if rid.all (· != ':') then some (d, rt, rid) else none
      | _ => none
    | _ => none
  | _ => none

/-- The result type of `parseUrn`. -/
structure ParsedUrn where
  domain : List Char
  resourceType : List Char
  resourceId : List Char
deriving DecidableEq, Repr

/-- `parseUrn` of `urn-validator.ts`. -/
def parseUrn (urn : List Char) : Except String ParsedUrn :=
  if (trim urn).isEmpty then .error "URN must be a non-empty string"
  else
    match urnMatch urn with
    | none => .error "Invalid URN format"
    | some (d, rt, rid) =>
      if (trim d).isEmpty then .error "Invalid URN: domain cannot be empty"
      else if (trim rt).isEmpty then .error "Invalid URN: resourceType cannot be empty"
      else if (trim rid).isEmpty then .error "Invalid URN: resourceId cannot be empty"
      else .ok ⟨trim d, trim rt, trim rid⟩

/-- `createUrn` of `urn-validator.ts`. -/
def createUrn (domain resourceType resourceId : List Char) : Except String (List Char) :=
  if (trim domain).isEmpty then .error "Domain must be a non-empty string"
  else if (trim resourceType).isEmpty then .error "ResourceType must be a non-empty string"
  else if (trim resourceId).isEmpty then .error "ResourceId must be a non-empty string"
  else if !(uuidV7Match (trim resourceId)) then .error "Invalid resourceId format"
  else .ok (str "urn:" ++ trim domain ++ [':'] ++ trim resourceType ++ [':', ':'] ++ trim resourceId)

/-- `validateUrn` of `urn-validator.ts`. -/
def validateUrn (urn : List Char) : Bool :=
  if (trim urn).isEmpty then false
  else
    match parseUrn urn with
    | .error _ => false
    | .ok parsed =>
      if (trim parsed.domain).isEmpty then false
      else if (trim parsed.resourceType).isEmpty then false
      else uuidV7Match parsed.resourceId

/-! ## Key generation (`src/utils/key-generation.ts`) -/

/-- A DynamoDB primary key pair. -/
structure PrimaryKey where
  PK : List Char
  SK : List Char
deriving DecidableEq, Repr

/-- `generateResourceKey` of `key-generation.ts`. -/
def generateResourceKey (urn : List Char) : Except String PrimaryKey :=
  if !(validateUrn urn) then .error "Invalid URN format"
  else .ok ⟨str "Resource#" ++ urn, str "Resource#" ++ urn⟩

/-- `generateParentChildKey` of `key-generation.ts`. -/
def generateParentChildKey (parentUrn childUrn : List Char) : Except String PrimaryKey :=
  if !(validateUrn parentUrn) then .error "Invalid parent URN format"
  else if !(validateUrn childUrn) then .error "Invalid child URN format"
  else .ok ⟨str "Parent#" ++ parentUrn, str "Child#" ++ childUrn⟩

/-- `generateCollectionMemberKey` of `key-generation.ts`. -/
def generateCollectionMemberKey (collectionUrn memberUrn : List Char) : Except String PrimaryKey :=
  if !(validateUrn collectionUrn) then .error "Invalid collection URN format"
  else if !(validateUrn memberUrn) then .error "Invalid member URN format"
  else .ok ⟨str "Collection#" ++ collectionUrn, str "Member#" ++ memberUrn⟩

/-- `generateUniqueKeyValueKey` of `key-generation.ts`.  The three inputs are
free-form strings: no URN validation is performed, only emptiness checks, and
every fragment is trimmed before key assembly. -/
def generateUniqueKeyValueKey (resourceType key value : List Char) : Except String PrimaryKey :=
  if resourceType.isEmpty || (trim resourceType).isEmpty then .error "ResourceType cannot be empty"
  else if key.isEmpty || (trim key).isEmpty then .error "Key cannot be empty"
  else if value.isEmpty || (trim value).isEmpty then .error "Value cannot be empty"
  else
    .ok ⟨str "UniqueKeyValue#" ++ trim resourceType ++ ['#'] ++ trim key ++ ['#'] ++ trim value,
         str "UniqueKeyValue#" ++ trim resourceType ++ ['#'] ++ trim key⟩

/-! ## Timestamps (`src/utils/timestamps.ts`) -/

/-- A timezone suffix matched by `ISO_8601_PATTERN`: `Z` or a numeric `±HH:MM` offset. -/
inductive TzSuffix where
  | utc : TzSuffix
  | offset (negative : Bool) (offsetHour offsetMinute : Nat) : TzSuffix
deriving DecidableEq, Repr

/-- The components captured by a match of `ISO_8601_PATTERN`.  `millis` is the
optional `.mmm` group; `tz` is the optional timezone group. -/
structure IsoComponents where
  year : Nat
  month : Nat
  day : Nat
  hour : Nat
  minute : Nat
  second : Nat
  millis : Option Nat
  tz : Option TzSuffix
deriving DecidableEq, Repr

/-- The numeric value of an ASCII digit character. -/
def dval (c : Char) : Nat := c.toNat - 48

/-- Consume exactly two ASCII digits (`\d{2}`), returning their value and the rest. -/
def parse2 : List Char → Option (Nat × List Char)
  | a :: b :: r =>
    if isAsciiDigit a && isAsciiDigit b then some (dval a * 10 + dval b, r) else none
  | _ => none

/-- Consume exactly three ASCII digits (`\d{3}`), returning their value and the rest. -/
def parse3 : List Char → Option (Nat × List Char)
  | a :: b :: c :: r =>
    if isAsciiDigit a && isAsciiDigit b && isAsciiDigit c then
      some (dval a * 100 + dval b * 10 + dval c, r)
    else none
  | _ => none

/-- Consume exactly four ASCII digits (`\d{4}`), returning their value and the rest. -/
def parse4 : List Char → Option (Nat × List Char)
  | a :: b :: c :: d :: r =>
    if isAsciiDigit a && isAsciiDigit b && isAsciiDigit c && isAsciiDigit d then
      some (dval a * 1000 + dval b * 100 + dval c * 10 + dval d, r)
    else none
  | _ => none

/-- Tail of a numeric offset after its two hour digits: `:\d{2}` then end. -/
def tzOffMin (negative : Bool) (oh : Nat) : Option (Nat × List Char) → Option (Option TzSuffix)
  | none => none
  | some (om, r4) => if r4 = [] then some (some (.offset negative oh om)) else none

/-- After the sign of a numeric offset: `\d{2}` hours then `:` then minutes. -/
def tzOffTail (negative : Bool) (oh : Nat) (r : List Char) : Option (Option TzSuffix) :=
  match r with
  | [] => none
  | c :: r3 => if c = ':' then tzOffMin negative oh (parse2 r3) else none

/-- Dispatch on the hour digits of a numeric offset. -/
def tzOffStage (negative : Bool) : Option (Nat × List Char) → Option (Option TzSuffix)
  | none => none
  | some (oh, r2) => tzOffTail negative oh r2

/-- The trailing `(Z|[+-]\d{2}:\d{2})?$` part of `ISO_8601_PATTERN`: the whole
rest of the string is nothing, a lone `Z`, or a sign followed by a numeric
`HH:MM` offset. -/
def tzParse : List Char → Option (Option TzSuffix)
  | [] => some none
  | ['Z'] => some (some .utc)
  | '+' :: r => tzOffStage false (parse2 r)
  | '-' :: r => tzOffStage true (parse2 r)
  | _ => none

/-- The final stage of the timestamp match: the captured components paired
with the result of the timezone group. -/
def isoTzStage (y mo d h mi s : Nat) (ms : Option Nat) :
    Option (Option TzSuffix) → Option IsoComponents
  | none => none
  | some tz => some ⟨y, mo, d, h, mi, s, ms, tz⟩

/-- Dispatch on the three millisecond digits of the `\.\d{3}` group. -/
def isoMsStage (y mo d h mi s : Nat) : Option (Nat × List Char) → Option IsoComponents
  | none => none
  | some (ms, r8) => isoTzStage y mo d h mi s (some ms) (tzParse r8)

/-- After the seconds: an optional `.mmm` group, then the timezone group. -/
def isoAfterSeconds (y mo d h mi s : Nat) (r : List Char) : Option IsoComponents :=
  match r with
  | [] => isoTzStage y mo d h mi s none (tzParse [])
  | c :: r7 =>
    if c = '.' then isoMsStage y mo d h mi s (parse3 r7)
    else isoTzStage y mo d h mi s none (tzParse (c :: r7))

/-- Dispatch on the seconds digits. -/
def isoSecondsStage (y mo d h mi : Nat) : Option (Nat × List Char) → Option IsoComponents
  | none => none
  | some (s, r6) => isoAfterSeconds y mo d h mi s r6

/-- After the minutes: `:` then the seconds. -/
def isoAfterMinute (y mo d h mi : Nat) (r : List Char) : Option IsoComponents :=
  match r with
  | [] => none
  | c :: r5 => if c = ':' then isoSecondsStage y mo d h mi (parse2 r5) else none

/-- Dispatch on the minute digits. -/
def isoMinuteStage (y mo d h : Nat) : Option (Nat × List Char) → Option IsoComponents
  | none => none
  | some (mi, r) => isoAfterMinute y mo d h mi r

/-- After the hours: `:` then the minutes. -/
def isoAfterHour (y mo d h : Nat) (r : List Char) : Option IsoComponents :=
  match r with
  | [] => none
  | c :: r4 => if c = ':' then isoMinuteStage y mo d h (parse2 r4) else none

/-- Dispatch on the hour digits. -/
def isoHourStage (y mo d : Nat) : Option (Nat × List Char) → Option IsoComponents
  | none => none
  | some (h, r) => isoAfterHour y mo d h r

/-- After the day: `T` then the time. -/
def isoAfterDay (y mo d : Nat) (r : List Char) : Option IsoComponents :=
  match r with
  | [] => none
  | c :: r3 => if c = 'T' then isoHourStage y mo d (parse2 r3) else none

/-- Dispatch on the day digits. -/
def isoDayStage (y mo : Nat) : Option (Nat × List Char) → Option IsoComponents
  | none => none
  | some (d, r) => isoAfterDay y mo d r

/-- After the month: `-` then the day. -/
def isoAfterMonth (y mo : Nat) (r : List Char) : Option IsoComponents :=
  match r with
  | [] => none
  | c :: r2 => if c = '-' then isoDayStage y mo (parse2 r2) else none

/-- Dispatch on the month digits. -/
def isoMonthStage (y : Nat) : Option (Nat × List Char) → Option IsoComponents
  | none => none
  | some (mo, r) => isoAfterMonth y mo r

/-- After the year: `-` then the month. -/
def isoAfterYear (y : Nat) (r : List Char) : Option IsoComponents :=
  match r with
  | [] => none
  | c :: r1 => if c = '-' then isoMonthStage y (parse2 r1) else none

/-- Dispatch on the four year digits. -/
def isoYearStage : Option (Nat × List Char) → Option IsoComponents
  | none => none
  | some (y, r) => isoAfterYear y r

/-- `ISO_8601_PATTERN = /^\d{4}-\d{2}-\d{2}T\d{2}:\d{2}:\d{2}(\.\d{3})?(Z|[+-]\d{2}:\d{2})?$/`
of `timestamps.ts`, as an anchored sequential matcher (decomposed into the
stage functions above) that also captures the component values.  Note that
both the millisecond group and the timezone group are optional in the source
pattern. -/
def isoParse (cs : List Char) : Option IsoComponents :=
  isoYearStage (parse4 cs)

/-- Gregorian leap year. -/
def isLeapYear (y : Nat) : Bool := (y % 4 == 0 && y % 100 != 0) || y % 400 == 0

/-- Days in a month of the proleptic Gregorian calendar. -/
def daysInMonth (y m : Nat) : Nat :=
  if m == 1 || m == 3 || m == 5 || m == 7 || m == 8 || m == 10 || m == 12 then 31
  else if m == 4 || m == 6 || m == 9 || m == 11 then 30
  else if isLeapYear y then 29 else 28

/-- Modelled from the spec: the `new Date(timestamp)`/`isNaN(date.getTime())`
check of `isValidIso8601`.  The ECMAScript host is not part of this repository;
for strings in the date-time string format its parser accepts exactly the
component tuples that denote a real calendar date/time: month 1..12, day within
the month, time below 24:00 (with 24:00:00.000 itself allowed as the end of the
day), and a numeric offset below ±24:00. -/
def jsDateValid (c : IsoComponents) : Bool :=
  decide (1 ≤ c.month) && decide (c.month ≤ 12) &&
  decide (1 ≤ c.day) && decide (c.day ≤ daysInMonth c.year c.month) &&
  (decide (c.hour ≤ 23) ||
    (c.hour == 24 && c.minute == 0 && c.second == 0 && c.millis.getD 0 == 0)) &&
  decide (c.minute ≤ 59) && decide (c.second ≤ 59) &&
  (match c.tz with
   | some (.offset _ oh om) => decide (oh ≤ 23) && decide (om ≤ 59)
   | _ => true)

/-- `isValidIso8601` of `timestamps.ts`: false on empty/whitespace-only input,
then `ISO_8601_PATTERN.test(timestamp.trim())`, then the `new Date` validity
check (the host trims the surrounding whitespace again, so the check is applied
to the components captured by the pattern match). -/
def isValidIso8601 (ts : List Char) : Bool :=
  if (trim ts).isEmpty then false
  else
    match isoParse (trim ts) with
    | none => false
    | some c => jsDateValid c

/-! ## Rendering of the timestamp grammar (used to state the spec's pattern
and to describe the output of `getCurrentTimestamp`) -/

/-- The ASCII digit character of a value below 10. -/
def digitChar (d : Nat) : Char := Char.ofNat (48 + d)

/-- A two-digit zero-padded decimal rendering. -/
def pad2 (n : Nat) : List Char := [digitChar (n / 10 % 10), digitChar (n % 10)]

/-- A three-digit zero-padded decimal rendering. -/
def pad3 (n : Nat) : List Char := [digitChar (n / 100 % 10), digitChar (n / 10 % 10), digitChar (n % 10)]

/-- A four-digit zero-padded decimal rendering. -/
def pad4 (n : Nat) : List Char :=
  [digitChar (n / 1000 % 10), digitChar (n / 100 % 10), digitChar (n / 10 % 10), digitChar (n % 10)]

/-- Rendering of the optional `.mmm` millisecond group. -/
def msRender : Option Nat → List Char
  | none => []
  | some m => '.' :: pad3 m

/-- Rendering of the optional timezone suffix. -/
def tzRender : Option TzSuffix → List Char
  | none => []
  | some .utc => ['Z']
  | some (.offset neg oh om) => (if neg then '-' else '+') :: (pad2 oh ++ ':' :: pad2 om)

/-- The string denoted by a component tuple: date, `T`, time, optional `.mmm`,
optional timezone — the shape described by `ISO_8601_PATTERN`. -/
def isoRender (c : IsoComponents) : List Char :=
  pad4 c.year ++ '-' :: (pad2 c.month ++ '-' :: (pad2 c.day ++ 'T' ::
    (pad2 c.hour ++ ':' :: (pad2 c.minute ++ ':' ::
      (pad2 c.second ++ (msRender c.millis ++ tzRender c.tz))))))

/-- The offset values representable in the two-digit groups of the timezone
pattern. -/
def tzOffRange : Option TzSuffix → Prop
  | some (.offset _ oh om) => oh < 100 ∧ om < 100
  | _ => True

/-- The millisecond values representable in the three-digit `.mmm` group. -/
def msRange : Option Nat → Prop
  | some m => m < 1000
  | none => True

/-- The component values representable in the fixed-width digit groups of the
pattern (4-digit year, 2-digit fields, 3-digit milliseconds). -/
def inDigitRange (c : IsoComponents) : Prop :=
  c.year < 10000 ∧ c.month < 100 ∧ c.day < 100 ∧ c.hour < 100 ∧ c.minute < 100 ∧
  c.second < 100 ∧ msRange c.millis ∧ tzOffRange c.tz

instance (o : Option Nat) : Decidable (msRange o) :=
  match o with
  | some m => inferInstanceAs (Decidable (m < 1000))
  | none => inferInstanceAs (Decidable True)

instance (tz : Option TzSuffix) : Decidable (tzOffRange tz) :=
  match tz with
  | some (.offset _ oh om) => inferInstanceAs (Decidable (oh < 100 ∧ om < 100))
  | some .utc => inferInstanceAs (Decidable True)
  | none => inferInstanceAs (Decidable True)

instance (c : IsoComponents) : Decidable (inDigitRange c) :=
  inferInstanceAs (Decidable (_ ∧ _ ∧ _ ∧ _ ∧ _ ∧ _ ∧ _ ∧ _))

/-- Modelled from the spec: `getCurrentTimestamp` returns `new Date().toISOString()`,
the current instant in the canonical `YYYY-MM-DDTHH:mm:ss.sssZ` form — i.e. the
rendering of a real calendar date/time with a millisecond group and the `Z`
suffix. -/
def isToIsoStringOutput (now : List Char) : Prop :=
  ∃ y mo dd hh mi ss ms,
    now = isoRender ⟨y, mo, dd, hh, mi, ss, some ms, some .utc⟩ ∧
    jsDateValid ⟨y, mo, dd, hh, mi, ss, some ms, some .utc⟩ = true ∧
    y < 10000 ∧ ms < 1000

/-! ## Record factories (`src/factories/relationships.ts`, `src/factories/resource.ts`)

The ambient `getCurrentTimestamp()` call is threaded through as the `now`
parameter and the ambient `generateUuidV7()` call as the `genId` parameter. -/

/-- JS truthiness of an optional string option (`if (options.field)`):
false for an absent field and for the empty string. -/
def jsTruthy : Option (List Char) → Bool
  | none => false
  | some s => !s.isEmpty

/-- A `ParentChildRelationshipRecord` as assembled by its factory. -/
structure ParentChildRelationshipRecord where
  PK : List Char
  SK : List Char
  _recordType : List Char
  parentUrn : List Char
  childUrn : List Char
  _createdAt : List Char
  _accountUrn : Option (List Char)
deriving DecidableEq, Repr

/-- A `CollectionMembershipRelationshipRecord` as assembled by its factory
(`_accountUrn` is always present). -/
structure CollectionMembershipRelationshipRecord where
  PK : List Char
  SK : List Char
  _recordType : List Char
  collectionUrn : List Char
  memberUrn : List Char
  _createdAt : List Char
  _accountUrn : List Char
deriving DecidableEq, Repr

/-- `createParentChildRelationship` of `relationships.ts`. -/
def createParentChildRelationship (parentUrn childUrn : List Char)
    (accountUrn : Option (List Char)) (now : List Char) :
    Except String ParentChildRelationshipRecord :=
  if !(validateUrn parentUrn) then .error "Invalid parent URN format"
  else if !(validateUrn childUrn) then .error "Invalid child URN format"
  else do
    let keys ← generateParentChildKey parentUrn childUrn
    let record : ParentChildRelationshipRecord :=
      { PK := keys.PK, SK := keys.SK, _recordType := str "ParentChildRelationship",
        parentUrn := parentUrn, childUrn := childUrn, _createdAt := now, _accountUrn := none }
    if jsTruthy accountUrn then
      if !(validateUrn (accountUrn.getD [])) then .error "Invalid accountUrn format"
      else .ok { record with _accountUrn := accountUrn }
    else .ok record

/-- `createCollectionMembershipRelationship` of `relationships.ts`: the
presence check of the required `accountUrn` comes first, then the three URN
format validations in order. -/
def createCollectionMembershipRelationship (collectionUrn memberUrn accountUrn : List Char)
    (now : List Char) : Except String CollectionMembershipRelationshipRecord :=
  if accountUrn.isEmpty || (trim accountUrn).isEmpty then
    .error "AccountUrn is required for CollectionMembershipRelationship"
  else if !(validateUrn collectionUrn) then .error "Invalid collection URN format"
  else if !(validateUrn memberUrn) then .error "Invalid member URN format"
  else if !(validateUrn accountUrn) then .error "Invalid accountUrn format"
  else do
    let keys ← generateCollectionMemberKey collectionUrn memberUrn
    .ok { PK := keys.PK, SK := keys.SK, _recordType := str "CollectionMemberRelationship",
          collectionUrn := collectionUrn, memberUrn := memberUrn, _createdAt := now,
          _accountUrn := accountUrn }

/-! ### The Resource factory and JS object semantics

`createResource` merges the caller-supplied `attributes` into the assembled
record with `Object.assign`, so its result is modelled as a JS object: an
association list of field name to value, where setting an existing key
overwrites it in place and a new key is appended. -/

/-- A JS field value: the records built here hold strings and one number. -/
inductive JsValue where
  | vStr (s : List Char) : JsValue
  | vNum (q : ℚ) : JsValue
deriving DecidableEq, Repr

/-- A JS object: field names in insertion order with their values. -/
abbrev JsObject := List (List Char × JsValue)

/-- `obj[k] = v`: overwrite the value of an existing key, else append the key. -/
def objSet (r : JsObject) (k : List Char) (v : JsValue) : JsObject :=
  if r.any (fun p => p.1 == k) then
    r.map (fun p => if p.1 == k then (p.1, v) else p)
  else r ++ [(k, v)]

/-- `Object.assign(r, attrs)`: set every own property of `attrs` on `r`, in order. -/
def objAssign (r : JsObject) (attrs : JsObject) : JsObject :=
  attrs.foldl (fun acc p => objSet acc p.1 p.2) r

/-- `const id = options.id || generateUuidV7()` of `createResource`: JS `||`
falls through to the generated id when `options.id` is absent or empty. -/
def effectiveId (id : Option (List Char)) (genId : List Char) : List Char :=
  match id with
  | some s => if s.isEmpty then genId else s
  | none => genId

/-- The record literal assembled by `createResource` before the optional
`_accountUrn` assignment and the attribute merge. -/
def resourceRecordBase (keys : PrimaryKey) (resourceType theId urn : List Char)
    (schemaVersion : ℚ) (now : List Char) : JsObject :=
  [(str "PK", .vStr keys.PK), (str "SK", .vStr keys.SK),
   (str "_recordType", .vStr (str "Resource")),
   (str "_resourceType", .vStr (trim resourceType)),
   (str "_id", .vStr theId),
   (str "urn", .vStr urn),
   (str "_schemaVersion", .vNum schemaVersion),
   (str "_createdAt", .vStr now),
   (str "_updatedAt", .vStr now)]

/-- `createResource` of `resource.ts`.  `schemaVersion` is a JS number
(modelled as `ℚ`; the `typeof` check of the source always passes here), the
optional `id` falls back to the generated id when absent or empty (JS `||`),
and the caller attributes are merged last with `Object.assign`. -/
def createResource (resourceType : List Char) (id : Option (List Char)) (schemaVersion : ℚ)
    (accountUrn : Option (List Char)) (attributes : Option JsObject)
    (genId now : List Char) : Except String JsObject :=
  if resourceType.isEmpty || (trim resourceType).isEmpty then .error "ResourceType cannot be empty"
  else if schemaVersion < 1 then .error "SchemaVersion must be a positive number"
  else if jsTruthy id && !(uuidV7Match (effectiveId id genId)) then .error "Invalid ID format"
  else do
    let urn ← createUrn (str "pp") (trim resourceType) (effectiveId id genId)
    if !(validateUrn urn) then .error "Failed to create valid URN"
    else do
      let keys ← generateResourceKey urn
      let record2 ←
        if jsTruthy accountUrn then
          if !(validateUrn (accountUrn.getD [])) then .error "Invalid accountUrn format"
          else .ok (objSet
            (resourceRecordBase keys resourceType (effectiveId id genId) urn schemaVersion now)
            (str "_accountUrn") (.vStr (accountUrn.getD [])))
        else .ok (resourceRecordBase keys resourceType (effectiveId id genId) urn schemaVersion now)
      match attributes with
      | some attrs => .ok (objAssign record2 attrs)
      | none => .ok record2

/-- The reserved field names assembled by `createResource` before the
attribute merge. -/
def reservedResourceFields : List (List Char) :=
  [str "PK", str "SK", str "_recordType", str "_resourceType", str "_id", str "urn",
   str "_schemaVersion", str "_createdAt", str "_updatedAt", str "_accountUrn"]

/-! ## Lemmas about `trim` -/

theorem dropWhile_dropWhile (p : Char → Bool) (l : List Char) :
    (l.dropWhile p).dropWhile p = l.dropWhile p := by
  match h : l.dropWhile p with
  | [] => simp
  | a :: t =>
    have hw : l.dropWhile p ≠ [] := by simp [h]
    have hh := List.head_dropWhile_not p l hw
    simp only [h, List.head_cons] at hh
    rw [List.dropWhile_cons_of_neg (by simp [hh])]

theorem trimLeft_decomp (cs : List Char) :
    trim cs = (((cs.dropWhile isJsSpace).reverse.dropWhile isJsSpace).reverse : List Char) := rfl

theorem trim_prefix_decomp (cs : List Char) :
    cs.dropWhile isJsSpace =
      trim cs ++ ((cs.dropWhile isJsSpace).reverse.takeWhile isJsSpace).reverse := by
  conv_lhs => rw [← List.reverse_reverse (cs.dropWhile isJsSpace),
    ← List.takeWhile_append_dropWhile isJsSpace (cs.dropWhile isJsSpace).reverse]
  rw [List.reverse_append, trimLeft_decomp]

theorem trim_head_not_space (cs : List Char) (b : Char) (t : List Char)
    (h : trim cs = b :: t) : isJsSpace b = false := by
  have hd := trim_prefix_decomp cs
  rw [h, List.cons_append] at hd
  have h2 := dropWhile_dropWhile isJsSpace cs
  rw [hd] at h2
  cases hb : isJsSpace b with
  | false => rfl
  | true =>
    rw [List.dropWhile_cons_of_pos hb] at h2
    have h3 := congrArg List.length h2
    have h4 := (List.dropWhile_sublist (l := t ++ (List.takeWhile isJsSpace (List.dropWhile isJsSpace cs).reverse).reverse) isJsSpace).length_le
    simp only [List.length_cons] at h3
    omega

theorem trim_idem (cs : List Char) : trim (trim cs) = trim cs := by
  have h1 : (trim cs).dropWhile isJsSpace = trim cs := by
    cases h : trim cs with
    | nil => simp
    | cons b t => rw [List.dropWhile_cons_of_neg]; simp [trim_head_not_space cs b t h]
  rw [trimLeft_decomp (trim cs), h1, trimLeft_decomp cs, List.reverse_reverse,
    dropWhile_dropWhile]

theorem mem_of_mem_trim {c : Char} {cs : List Char} (h : c ∈ trim cs) : c ∈ cs := by
  rw [trimLeft_decomp, List.mem_reverse] at h
  have h2 := (List.dropWhile_sublist isJsSpace).mem h
  rw [List.mem_reverse] at h2
  exact (List.dropWhile_sublist isJsSpace).mem h2

theorem trim_eq_self {cs : List Char} (h : ∀ c ∈ cs, isJsSpace c = false) : trim cs = cs := by
  have h1 : cs.dropWhile isJsSpace = cs := by
    cases cs with
    | nil => rfl
    | cons a t => rw [List.dropWhile_cons_of_neg]; simp [h a (by simp)]
  rw [trimLeft_decomp, h1]
  have h2 : cs.reverse.dropWhile isJsSpace = cs.reverse := by
    cases hr : cs.reverse with
    | nil => rfl
    | cons a t =>
      rw [List.dropWhile_cons_of_neg]
      have : a ∈ cs := by rw [← List.mem_reverse, hr]; simp
      simp [h a this]
  rw [h2, List.reverse_reverse]

theorem trim_ne_nil {c : Char} {cs : List Char} (hmem : c ∈ cs)
    (hc : isJsSpace c = false) : trim cs ≠ [] := by
  intro h
  rw [trimLeft_decomp, List.reverse_eq_nil_iff, List.dropWhile_eq_nil_iff] at h
  have h2 : ∀ x ∈ cs.dropWhile isJsSpace, isJsSpace x = true := by
    intro x hx
    exact h x (by rwa [List.mem_reverse])
  have h3 : ∀ x ∈ cs, isJsSpace x = true := by
    intro x hx
    rw [← List.takeWhile_append_dropWhile isJsSpace cs, List.mem_append] at hx
    rcases hx with hx | hx
    · exact List.mem_takeWhile_imp hx
    · exact h2 x hx
  rw [h3 c hmem] at hc
  exact Bool.noConfusion hc

theorem trim_ne_nil_isEmpty {c : Char} {cs : List Char} (hmem : c ∈ cs)
    (hc : isJsSpace c = false) : (trim cs).isEmpty = false := by
  rw [List.isEmpty_eq_false]
  exact trim_ne_nil hmem hc

/-! ## Lemmas about `takeWhile`/`dropWhile` across an append -/

theorem takeWhile_middle (p : Char → Bool) (A : List Char) (x : Char) (B : List Char)
    (hA : ∀ c ∈ A, p c = true) (hx : p x = false) :
    (A ++ x :: B).takeWhile p = A := by
  induction A with
  | nil => simp [List.takeWhile_cons, hx]
  | cons a t ih =>
    rw [List.cons_append, List.takeWhile_cons_of_pos (by simp [hA a (by simp)])]
    rw [ih (fun c hc => hA c (by simp [hc]))]

theorem dropWhile_middle (p : Char → Bool) (A : List Char) (x : Char) (B : List Char)
    (hA : ∀ c ∈ A, p c = true) (hx : p x = false) :
    (A ++ x :: B).dropWhile p = x :: B := by
  induction A with
  | nil => simp [List.dropWhile_cons, hx]
  | cons a t ih =>
    rw [List.cons_append, List.dropWhile_cons_of_pos (by simp [hA a (by simp)])]
    exact ih (fun c hc => hA c (by simp [hc]))

/-! ## Lemmas about the UUID v7 matcher -/

theorem hexTake_append {n : Nat} {cs r : List Char} (h : hexTake n cs = some r) :
    ∃ p, cs = p ++ r ∧ p.length = n ∧ ∀ c ∈ p, isHexDigitI c = true := by
  induction n generalizing cs with
  | zero =>
    simp only [hexTake, Option.some.injEq] at h
    exact ⟨[], by simp [h]⟩
  | succ m ih =>
    match cs with
    | [] => simp [hexTake] at h
    | c :: cs' =>
      simp only [hexTake] at h
      split at h
      · obtain ⟨p, hp1, hp2, hp3⟩ := ih h
        refine ⟨c :: p, by simp [hp1], by simp [hp2], ?_⟩
        intro x hx
        rcases List.mem_cons.mp hx with rfl | hx
        · assumption
        · exact hp3 x hx
      · exact absurd h (by simp)

theorem uuid_chars {cs : List Char} (h : uuidV7Match cs = true) :
    ∀ c ∈ cs, isHexDigitI c = true ∨ c = '-' := by
  unfold uuidV7Match at h
  split at h <;> try exact Bool.noConfusion h
  rename_i r1 h8
  split at h <;> try exact Bool.noConfusion h
  rename_i r2 h4
  split at h <;> try exact Bool.noConfusion h
  rename_i cv r3 h3
  split at h
  case isFalse => exact Bool.noConfusion h
  rename_i hv
  split at h <;> try exact Bool.noConfusion h
  rename_i r4 h3b
  have h12 : hexTake 12 r4 = some [] := by
    rwa [beq_iff_eq] at h
  obtain ⟨p8, e8, _, d8⟩ := hexTake_append h8
  obtain ⟨p4, e4, _, d4⟩ := hexTake_append h4
  obtain ⟨p3, e3, _, d3⟩ := hexTake_append h3
  obtain ⟨p3b, e3b, _, d3b⟩ := hexTake_append h3b
  obtain ⟨p12, e12, _, d12⟩ := hexTake_append h12
  rw [List.append_nil] at e12
  subst e8 e4 e3 e3b e12
  intro c hc
  have hsev : isHexDigitI '7' = true := by decide
  have hvar : isHexDigitI cv = true := by
    simp only [isUuidVariantI, Bool.or_eq_true, beq_iff_eq, or_assoc] at hv
    rcases hv with rfl | rfl | rfl | rfl | rfl | rfl <;> decide
  simp only [List.mem_append, List.mem_cons] at hc
  rcases hc with hc | hc | hc | hc | hc | hc | hc | hc | hc | hc
  · exact .inl (d8 c hc)
  · exact .inr hc
  · exact .inl (d4 c hc)
  · exact .inr hc
  · exact .inl (hc ▸ hsev)
  · exact .inl (d3 c hc)
  · exact .inr hc
  · exact .inl (hc ▸ hvar)
  · exact .inl (d3b c hc)
  · rcases hc with hc | hc
    · exact .inr hc
    · exact .inl (d12 c hc)

theorem hex_or_dash_not_space {c : Char} (h : isHexDigitI c = true ∨ c = '-') :
    isJsSpace c = false := by
  rcases h with h | rfl
  · rw [Bool.eq_false_iff]
    intro hsp
    simp only [isJsSpace, Bool.or_eq_true, beq_iff_eq, or_assoc] at hsp
    rcases hsp with rfl | rfl | rfl | rfl | rfl | rfl | rfl | rfl | rfl | rfl | rfl | rfl |
      rfl | rfl | rfl | rfl | rfl | rfl | rfl | rfl | rfl | rfl | rfl | rfl | rfl <;>
      exact absurd h (by decide)
  · decide

theorem hex_or_dash_ne_colon {c : Char} (h : isHexDigitI c = true ∨ c = '-') :
    (c != ':') = true := by
  rcases h with h | rfl
  · simp only [bne_iff_ne, ne_eq]
    rintro rfl
    exact absurd h (by decide)
  · decide

theorem uuid_not_space {cs : List Char} (h : uuidV7Match cs = true) :
    ∀ c ∈ cs, isJsSpace c = false :=
  fun c hc => hex_or_dash_not_space (uuid_chars h c hc)

theorem uuid_no_colon {cs : List Char} (h : uuidV7Match cs = true) :
    ∀ c ∈ cs, (c != ':') = true :=
  fun c hc => hex_or_dash_ne_colon (uuid_chars h c hc)

theorem uuid_trim {cs : List Char} (h : uuidV7Match cs = true) : trim cs = cs :=
  trim_eq_self (uuid_not_space h)

theorem uuid_ne_nil {cs : List Char} (h : uuidV7Match cs = true) : cs ≠ [] := by
  rintro rfl
  exact absurd h (by decide)

/-! ## Lemmas about URN parsing -/

theorem urnMatch_render (d rt rid : List Char)
    (hd : ∀ c ∈ d, (c != ':') = true) (hrt : ∀ c ∈ rt, (c != ':') = true)
    (hrid : ∀ c ∈ rid, (c != ':') = true) :
    urnMatch (str "urn:" ++ d ++ [':'] ++ rt ++ [':', ':'] ++ rid) = some (d, rt, rid) := by
  have hshape : str "urn:" ++ d ++ [':'] ++ rt ++ [':', ':'] ++ rid =
      'u' :: 'r' :: 'n' :: ':' :: (d ++ ':' :: (rt ++ ':' :: ':' :: rid)) := by
    simp [str]
  rw [hshape]
  simp only [urnMatch]
  rw [takeWhile_middle _ d ':' _ hd (by decide), dropWhile_middle _ d ':' _ hd (by decide)]
  simp only []
  rw [takeWhile_middle _ rt ':' _ hrt (by decide), dropWhile_middle _ rt ':' _ hrt (by decide)]
  simp only []
  rw [if_pos (List.all_eq_true.mpr hrid)]

theorem parseUrn_render (d rt rid : List Char)
    (hd : ∀ c ∈ d, (c != ':') = true) (hrt : ∀ c ∈ rt, (c != ':') = true)
    (hrid : ∀ c ∈ rid, (c != ':') = true)
    (hdt : trim d = d) (hrtt : trim rt = rt) (hridt : trim rid = rid)
    (hdne : d ≠ []) (hrtne : rt ≠ []) (hridne : rid ≠ []) :
    parseUrn (str "urn:" ++ d ++ [':'] ++ rt ++ [':', ':'] ++ rid) = .ok ⟨d, rt, rid⟩ := by
  unfold parseUrn
  rw [if_neg (by
    simp only [List.isEmpty_eq_true]
    exact trim_ne_nil (c := 'u') (by simp [str]) (by decide))]
  rw [urnMatch_render d rt rid hd hrt hrid]
  simp only []
  rw [hdt, hrtt, hridt]
  rw [if_neg (by simp [hdne]), if_neg (by simp [hrtne]), if_neg (by simp [hridne])]

theorem parseUrn_ok_facts {urn : List Char} {p : ParsedUrn} (hp : parseUrn urn = .ok p) :
    (trim urn).isEmpty = false ∧ (trim p.domain).isEmpty = false ∧
    (trim p.resourceType).isEmpty = false ∧ (trim p.resourceId).isEmpty = false := by
  unfold parseUrn at hp
  split at hp
  · exact Except.noConfusion hp
  rename_i h1
  split at hp
  · exact Except.noConfusion hp
  rename_i d rt rid heq
  split at hp
  · exact Except.noConfusion hp
  rename_i h2
  split at hp
  · exact Except.noConfusion hp
  rename_i h3
  split at hp
  · exact Except.noConfusion hp
  rename_i h4
  have hpp : p = ⟨trim d, trim rt, trim rid⟩ := by
    cases hp; rfl
  subst hpp
  simp only [Bool.not_eq_true] at h1 h2 h3 h4
  exact ⟨h1, by rwa [trim_idem], by rwa [trim_idem], by rwa [trim_idem]⟩

theorem validateUrn_of_parse {urn : List Char} {p : ParsedUrn}
    (hp : parseUrn urn = .ok p) (hu : uuidV7Match p.resourceId = true) :
    validateUrn urn = true := by
  obtain ⟨h1, h2, h3, _⟩ := parseUrn_ok_facts hp
  unfold validateUrn
  rw [if_neg (by simp [h1]), hp]
  simp only []
  rw [if_neg (by simp [h2]), if_neg (by simp [h3])]
  exact hu

theorem validateUrn_true_iff (urn : List Char) :
    validateUrn urn = true ↔
      ∃ p, parseUrn urn = .ok p ∧ uuidV7Match p.resourceId = true := by
  constructor
  · intro h
    unfold validateUrn at h
    split at h
    · exact Bool.noConfusion h
    split at h
    · exact Bool.noConfusion h
    rename_i p heq
    split at h
    · exact Bool.noConfusion h
    split at h
    · exact Bool.noConfusion h
    exact ⟨p, heq, h⟩
  · rintro ⟨p, hp, hu⟩
    exact validateUrn_of_parse hp hu

/-! ## Claim C1: createUrn/parseUrn round-trip -/

/-- C1: for every valid triple (domain, resourceType, resourceId) — domain and
resourceType non-empty (after trimming) colon-free strings and resourceId
matching the UUID v7 grammar — `parseUrn (createUrn domain resourceType
resourceId)` succeeds and returns exactly the triple with each component
trimmed of surrounding whitespace. -/
theorem claim_C1_roundtrip (domain resourceType resourceId : List Char)
    (hdom : trim domain ≠ []) (hrt : trim resourceType ≠ [])
    (hdc : ∀ c ∈ domain, c ≠ ':') (hrtc : ∀ c ∈ resourceType, c ≠ ':')
    (hid : uuidV7Match resourceId = true) :
    ∃ u, createUrn domain resourceType resourceId = .ok u ∧
      parseUrn u = .ok ⟨trim domain, trim resourceType, trim resourceId⟩ := by
  have hridt : trim resourceId = resourceId := uuid_trim hid
  refine ⟨str "urn:" ++ trim domain ++ [':'] ++ trim resourceType ++ [':', ':'] ++
    trim resourceId, ?_, ?_⟩
  · unfold createUrn
    rw [if_neg (by simp [hdom]), if_neg (by simp [hrt]), hridt,
      if_neg (by simp [uuid_ne_nil hid]), if_neg (by simp [hid])]
  · rw [hridt]
    exact parseUrn_render (trim domain) (trim resourceType) resourceId
      (fun c hc => by simpa using hdc c (mem_of_mem_trim hc))
      (fun c hc => by simpa using hrtc c (mem_of_mem_trim hc))
      (uuid_no_colon hid)
      (trim_idem domain) (trim_idem resourceType) hridt
      hdom hrt (uuid_ne_nil hid)

/-- Witness for C1 at a concrete valid triple (domain with surrounding
whitespace to exercise the trimming). -/
theorem claim_C1_roundtrip_witness :
    ∃ u, createUrn (str " pp ") (str "System.Account")
        (str "01955556-3cd2-7df2-b839-693fa6fbd505") = .ok u ∧
      parseUrn u = .ok ⟨trim (str " pp "), trim (str "System.Account"),
        trim (str "01955556-3cd2-7df2-b839-693fa6fbd505")⟩ :=
  claim_C1_roundtrip _ _ _ (by decide) (by decide) (by decide) (by decide) (by decide)

/-! ## Claim C5: validateUrn -/

/-- C5: `validateUrn` is a total boolean function (it never throws); it returns
`true` exactly when `parseUrn` succeeds and the parsed resourceId matches the
UUID v7 grammar, and it returns `false` on each of the spec's boundary
examples. -/
theorem claim_C5_validateUrn :
    (∀ urn, validateUrn urn = true ↔
      ∃ p, parseUrn urn = .ok p ∧ uuidV7Match p.resourceId = true) ∧
    validateUrn (str "") = false ∧
    validateUrn (str "invalid") = false ∧
    validateUrn (str "urn:pp:System.Account") = false ∧
    validateUrn (str "urn::System.Account::123") = false ∧
    validateUrn (str "urn:pp:System.Account::invalid-uuid") = false :=
  ⟨validateUrn_true_iff, by decide, by decide, by decide, by decide, by decide⟩

/-- Witness for C5: the equivalence instantiated at a concrete valid URN. -/
theorem claim_C5_validateUrn_witness :
    ∃ p, parseUrn (str "urn:pp:System.Account::01955556-3cd2-7df2-b839-693fa6fbd505") =
      .ok p ∧ uuidV7Match p.resourceId = true :=
  (claim_C5_validateUrn.1 _).mp (by decide)

/-! ## Claim C8: key derivation does not canonicalize the validated URN -/

/-- C8: a valid URN followed by a trailing space still validates (`parseUrn`
trims the captured resourceId before the grammar check), but
`generateResourceKey` embeds the raw, untrimmed input into PK and SK, so two
inputs equal after trimming produce different key pairs. -/
theorem claim_C8_keys_not_canonicalized :
    validateUrn (str "urn:pp:System.Account::01955556-3cd2-7df2-b839-693fa6fbd505 ") = true ∧
    trim (str "urn:pp:System.Account::01955556-3cd2-7df2-b839-693fa6fbd505 ") =
      str "urn:pp:System.Account::01955556-3cd2-7df2-b839-693fa6fbd505" ∧
    generateResourceKey (str "urn:pp:System.Account::01955556-3cd2-7df2-b839-693fa6fbd505 ") =
      .ok ⟨str "Resource#urn:pp:System.Account::01955556-3cd2-7df2-b839-693fa6fbd505 ",
           str "Resource#urn:pp:System.Account::01955556-3cd2-7df2-b839-693fa6fbd505 "⟩ ∧
    generateResourceKey (str "urn:pp:System.Account::01955556-3cd2-7df2-b839-693fa6fbd505") =
      .ok ⟨str "Resource#urn:pp:System.Account::01955556-3cd2-7df2-b839-693fa6fbd505",
           str "Resource#urn:pp:System.Account::01955556-3cd2-7df2-b839-693fa6fbd505"⟩ ∧
    (str "Resource#urn:pp:System.Account::01955556-3cd2-7df2-b839-693fa6fbd505 " : List Char) ≠
      str "Resource#urn:pp:System.Account::01955556-3cd2-7df2-b839-693fa6fbd505" :=
  ⟨by decide, by decide, by decide, by decide, by decide⟩

/-! ## Claim C10: createUrn accepts separators that parseUrn cannot re-parse -/

/-- C10: `createUrn` only checks that domain and resourceType are non-empty
after trimming, so a domain containing a colon is accepted; for any valid
resourceId the constructed string fails the URN pattern, `parseUrn` throws on
it, and `validateUrn` returns false on it. -/
theorem claim_C10_createUrn_unparseable (resourceId : List Char)
    (hid : uuidV7Match resourceId = true) :
    createUrn (str "a:b") (str "System.Account") resourceId =
      .ok (str "urn:a:b:System.Account::" ++ resourceId) ∧
    parseUrn (str "urn:a:b:System.Account::" ++ resourceId) = .error "Invalid URN format" ∧
    validateUrn (str "urn:a:b:System.Account::" ++ resourceId) = false := by
  have hridt : trim resourceId = resourceId := uuid_trim hid
  have hne : ¬(trim (str "urn:a:b:System.Account::" ++ resourceId)).isEmpty = true := by
    simp only [List.isEmpty_eq_true]
    exact trim_ne_nil (c := 'u') (by simp [str]) (by decide)
  have hm : urnMatch (str "urn:a:b:System.Account::" ++ resourceId) = none := rfl
  have hpe : parseUrn (str "urn:a:b:System.Account::" ++ resourceId) =
      .error "Invalid URN format" := by
    unfold parseUrn
    rw [if_neg hne, hm]
  refine ⟨?_, hpe, ?_⟩
  · unfold createUrn
    rw [if_neg (by decide), if_neg (by decide), hridt,
      if_neg (by simp [uuid_ne_nil hid]), if_neg (by simp [hid])]
    rfl
  · unfold validateUrn
    rw [if_neg hne, hpe]

/-- Witness for C10 at a concrete valid resourceId. -/
theorem claim_C10_createUrn_unparseable_witness :
    createUrn (str "a:b") (str "System.Account")
        (str "01955556-3cd2-7df2-b839-693fa6fbd505") =
      .ok (str "urn:a:b:System.Account::" ++ str "01955556-3cd2-7df2-b839-693fa6fbd505") ∧
    parseUrn (str "urn:a:b:System.Account::" ++ str "01955556-3cd2-7df2-b839-693fa6fbd505") =
      .error "Invalid URN format" ∧
    validateUrn (str "urn:a:b:System.Account::" ++
      str "01955556-3cd2-7df2-b839-693fa6fbd505") = false :=
  claim_C10_createUrn_unparseable _ (by decide)

/-! ## Claim C3: the UniqueKeyValue key derivation -/

theorem nonempty_cond {l : List Char} (h : trim l ≠ []) :
    ¬((l.isEmpty || (trim l).isEmpty) = true) := by
  simp only [Bool.or_eq_true, List.isEmpty_eq_true]
  rintro (rfl | he)
  · exact h rfl
  · exact h he

/-- C3: for all inputs non-empty after trimming, the unique-key-value key
derivation returns `UniqueKeyValue#{resourceType}#{key}#{value}` /
`UniqueKeyValue#{resourceType}#{key}` over the trimmed fragments — for
arbitrary free-form strings, with no URN validation — and it throws whenever
any of the three inputs is empty or whitespace-only. -/
theorem claim_C3_uniqueKeyValueKey :
    (∀ resourceType key value : List Char,
      trim resourceType ≠ [] → trim key ≠ [] → trim value ≠ [] →
      generateUniqueKeyValueKey resourceType key value =
        .ok ⟨str "UniqueKeyValue#" ++ trim resourceType ++ ['#'] ++ trim key ++ ['#'] ++
              trim value,
             str "UniqueKeyValue#" ++ trim resourceType ++ ['#'] ++ trim key⟩) ∧
    (∀ resourceType key value : List Char,
      trim resourceType = [] ∨ trim key = [] ∨ trim value = [] →
      ∃ e, generateUniqueKeyValueKey resourceType key value = .error e) := by
  constructor
  · intro rt k v h1 h2 h3
    unfold generateUniqueKeyValueKey
    rw [if_neg (nonempty_cond h1), if_neg (nonempty_cond h2), if_neg (nonempty_cond h3)]
  · intro rt k v h
    unfold generateUniqueKeyValueKey
    by_cases hc1 : (rt.isEmpty || (trim rt).isEmpty) = true
    · exact ⟨_, by rw [if_pos hc1]⟩
    · rw [if_neg hc1]
      by_cases hc2 : (k.isEmpty || (trim k).isEmpty) = true
      · exact ⟨_, by rw [if_pos hc2]⟩
      · rw [if_neg hc2]
        have h3 : trim v = [] := by
          rcases h with h | h | h
          · exact absurd (by simp [h] : (rt.isEmpty || (trim rt).isEmpty) = true) hc1
          · exact absurd (by simp [h] : (k.isEmpty || (trim k).isEmpty) = true) hc2
          · exact h
        exact ⟨_, by rw [if_pos (by simp [h3])]⟩

/-- Witness for C3: the spec's end-to-end example and an empty-input failure. -/
theorem claim_C3_uniqueKeyValueKey_witness :
    generateUniqueKeyValueKey (str "System.User") (str "emailAddress")
        (str "user@example.com") =
      .ok ⟨str "UniqueKeyValue#" ++ trim (str "System.User") ++ ['#'] ++
            trim (str "emailAddress") ++ ['#'] ++ trim (str "user@example.com"),
           str "UniqueKeyValue#" ++ trim (str "System.User") ++ ['#'] ++
            trim (str "emailAddress")⟩ ∧
    ∃ e, generateUniqueKeyValueKey (str " ") (str "k") (str "v") = .error e :=
  ⟨claim_C3_uniqueKeyValueKey.1 _ _ _ (by decide) (by decide) (by decide),
   claim_C3_uniqueKeyValueKey.2 _ _ _ (.inl (by decide))⟩

/-! ## Claim C4: error order of the CollectionMembership factory -/

/-- C4: `createCollectionMembershipRelationship` throws exactly one error, at
the first failed check, in the order: missing/empty accountUrn (the
required-field error) → invalid collectionUrn → invalid memberUrn → invalid
accountUrn format; with valid collection and member URNs and an empty
accountUrn it throws the required-field error, while
`createParentChildRelationship` with the same two URNs and no accountUrn
succeeds. -/
theorem claim_C4_collectionMembership_order :
    (∀ c m a now, trim a = [] →
      createCollectionMembershipRelationship c m a now =
        .error "AccountUrn is required for CollectionMembershipRelationship") ∧
    (∀ c m a now, trim a ≠ [] → validateUrn c = false →
      createCollectionMembershipRelationship c m a now =
        .error "Invalid collection URN format") ∧
    (∀ c m a now, trim a ≠ [] → validateUrn c = true → validateUrn m = false →
      createCollectionMembershipRelationship c m a now =
        .error "Invalid member URN format") ∧
    (∀ c m a now, trim a ≠ [] → validateUrn c = true → validateUrn m = true →
      validateUrn a = false →
      createCollectionMembershipRelationship c m a now =
        .error "Invalid accountUrn format") ∧
    (∀ now, createCollectionMembershipRelationship
        (str "urn:pp:System.Collection::01955558-3cd2-7df2-b839-693fa6fbd507")
        (str "urn:pp:System.Account::01955559-3cd2-7df2-b839-693fa6fbd508")
        (str "") now =
      .error "AccountUrn is required for CollectionMembershipRelationship") ∧
    (∀ now, ∃ r, createParentChildRelationship
        (str "urn:pp:System.Collection::01955558-3cd2-7df2-b839-693fa6fbd507")
        (str "urn:pp:System.Account::01955559-3cd2-7df2-b839-693fa6fbd508")
        none now = .ok r) := by
  refine ⟨?_, ?_, ?_, ?_, ?_, ?_⟩
  · intro c m a now h
    unfold createCollectionMembershipRelationship
    rw [if_pos (by simp [h])]
  · intro c m a now h hc
    unfold createCollectionMembershipRelationship
    rw [if_neg (nonempty_cond h), if_pos (by simp [hc])]
  · intro c m a now h hc hm
    unfold createCollectionMembershipRelationship
    rw [if_neg (nonempty_cond h), if_neg (by simp [hc]), if_pos (by simp [hm])]
  · intro c m a now h hc hm ha
    unfold createCollectionMembershipRelationship
    rw [if_neg (nonempty_cond h), if_neg (by simp [hc]), if_neg (by simp [hm]),
      if_pos (by simp [ha])]
  · intro now
    unfold createCollectionMembershipRelationship
    rw [if_pos (by decide)]
  · intro now
    refine ⟨{ PK := str "Parent#urn:pp:System.Collection::01955558-3cd2-7df2-b839-693fa6fbd507",
              SK := str "Child#urn:pp:System.Account::01955559-3cd2-7df2-b839-693fa6fbd508",
              _recordType := str "ParentChildRelationship",
              parentUrn := str "urn:pp:System.Collection::01955558-3cd2-7df2-b839-693fa6fbd507",
              childUrn := str "urn:pp:System.Account::01955559-3cd2-7df2-b839-693fa6fbd508",
              _createdAt := now, _accountUrn := none }, ?_⟩
    unfold createParentChildRelationship
    rw [if_neg (by decide), if_neg (by decide)]
    rfl

/-- Witness for C4: the four error branches and the success branch at concrete
inputs. -/
theorem claim_C4_collectionMembership_order_witness :
    createCollectionMembershipRelationship
        (str "urn:pp:System.Collection::01955558-3cd2-7df2-b839-693fa6fbd507")
        (str "urn:pp:System.Account::01955559-3cd2-7df2-b839-693fa6fbd508")
        (str " ") (str "2024-01-15T10:30:45.123Z") =
      .error "AccountUrn is required for CollectionMembershipRelationship" ∧
    createCollectionMembershipRelationship (str "invalid")
        (str "urn:pp:System.Account::01955559-3cd2-7df2-b839-693fa6fbd508")
        (str "urn:pp:System.Account::0195555a-3cd2-7df2-b839-693fa6fbd509")
        (str "2024-01-15T10:30:45.123Z") =
      .error "Invalid collection URN format" ∧
    createCollectionMembershipRelationship
        (str "urn:pp:System.Collection::01955558-3cd2-7df2-b839-693fa6fbd507")
        (str "invalid")
        (str "urn:pp:System.Account::0195555a-3cd2-7df2-b839-693fa6fbd509")
        (str "2024-01-15T10:30:45.123Z") =
      .error "Invalid member URN format" ∧
    createCollectionMembershipRelationship
        (str "urn:pp:System.Collection::01955558-3cd2-7df2-b839-693fa6fbd507")
        (str "urn:pp:System.Account::01955559-3cd2-7df2-b839-693fa6fbd508")
        (str "invalid") (str "2024-01-15T10:30:45.123Z") =
      .error "Invalid accountUrn format" ∧
    createCollectionMembershipRelationship
        (str "urn:pp:System.Collection::01955558-3cd2-7df2-b839-693fa6fbd507")
        (str "urn:pp:System.Account::01955559-3cd2-7df2-b839-693fa6fbd508")
        (str "") (str "2024-01-15T10:30:45.123Z") =
      .error "AccountUrn is required for CollectionMembershipRelationship" ∧
    ∃ r, createParentChildRelationship
        (str "urn:pp:System.Collection::01955558-3cd2-7df2-b839-693fa6fbd507")
        (str "urn:pp:System.Account::01955559-3cd2-7df2-b839-693fa6fbd508")
        none (str "2024-01-15T10:30:45.123Z") = .ok r :=
  ⟨claim_C4_collectionMembership_order.1 _ _ _ _ (by decide),
   claim_C4_collectionMembership_order.2.1 _ _ _ _ (by decide) (by decide),
   claim_C4_collectionMembership_order.2.2.1 _ _ _ _ (by decide) (by decide) (by decide),
   claim_C4_collectionMembership_order.2.2.2.1 _ _ _ _ (by decide) (by decide) (by decide)
     (by decide),
   claim_C4_collectionMembership_order.2.2.2.2.1 _,
   claim_C4_collectionMembership_order.2.2.2.2.2 _⟩

/-! ## Lemmas about the JS object operations -/

theorem lookup_cons_eq {p : List Char × JsValue} {t : JsObject} {k : List Char}
    (h : p.1 = k) : (p :: t).lookup k = some p.2 := by
  obtain ⟨p1, p2⟩ := p
  subst h
  simp [List.lookup_cons]

theorem lookup_cons_ne {p : List Char × JsValue} {t : JsObject} {k : List Char}
    (h : p.1 ≠ k) : (p :: t).lookup k = t.lookup k := by
  obtain ⟨p1, p2⟩ := p
  simp only at h
  simp [List.lookup_cons, beq_eq_false_iff_ne.mpr (Ne.symm h)]

theorem lookup_objSet_self (r : JsObject) (k : List Char) (v : JsValue) :
    (objSet r k v).lookup k = some v := by
  unfold objSet
  split
  · rename_i hany
    induction r with
    | nil => simp at hany
    | cons p t ih =>
      by_cases hk : p.1 = k
      · rw [List.map_cons, if_pos (beq_iff_eq.mpr hk)]
        exact lookup_cons_eq hk
      · have hk' : (p.1 == k) = false := beq_eq_false_iff_ne.mpr hk
        simp only [List.any_cons, hk', Bool.false_or] at hany
        rw [List.map_cons, if_neg (by simp [hk'])]
        rw [lookup_cons_ne hk]
        exact ih hany
  · rename_i hany
    have hnone : r.lookup k = none := by
      induction r with
      | nil => rfl
      | cons p t ih =>
        simp only [List.any_cons, Bool.or_eq_true, not_or] at hany
        have hk : p.1 ≠ k := by
          intro he
          exact hany.1 (by simp [he])
        rw [lookup_cons_ne hk]
        exact ih hany.2
    rw [List.lookup_append, hnone]
    simp [lookup_cons_eq rfl]

theorem lookup_objSet_ne (r : JsObject) (q k : List Char) (v : JsValue) (h : q ≠ k) :
    (objSet r q v).lookup k = r.lookup k := by
  unfold objSet
  split
  · rename_i hany
    clear hany
    induction r with
    | nil => rfl
    | cons p t ih =>
      rw [List.map_cons]
      by_cases hq : p.1 = q
      · rw [if_pos (beq_iff_eq.mpr hq)]
        rw [lookup_cons_ne (by simpa using hq ▸ h), lookup_cons_ne (hq ▸ h)]
        exact ih
      · rw [if_neg (by simp [hq])]
        by_cases hpk : p.1 = k
        · rw [lookup_cons_eq hpk, lookup_cons_eq hpk]
        · rw [lookup_cons_ne hpk, lookup_cons_ne hpk]
          exact ih
  · rw [List.lookup_append]
    have hone : ([(q, v)] : JsObject).lookup k = none := by
      rw [lookup_cons_ne h]
      rfl
    rw [hone]
    cases r.lookup k <;> simp

theorem lookup_objAssign_notin (r : JsObject) (attrs : JsObject) (k : List Char)
    (h : ∀ p ∈ attrs, p.1 ≠ k) : (objAssign r attrs).lookup k = r.lookup k := by
  induction attrs generalizing r with
  | nil => rfl
  | cons p t ih =>
    show (objAssign (objSet r p.1 p.2) t).lookup k = _
    rw [ih (objSet r p.1 p.2) (fun q hq => h q (by simp [hq]))]
    exact lookup_objSet_ne r p.1 k p.2 (h p (by simp))

theorem lookup_objAssign_mem (r : JsObject) (attrs : JsObject) (k : List Char) (v : JsValue)
    (hmem : (k, v) ∈ attrs) (hnodup : (attrs.map Prod.fst).Nodup) :
    (objAssign r attrs).lookup k = some v := by
  induction attrs generalizing r with
  | nil => simp at hmem
  | cons p t ih =>
    simp only [List.map_cons, List.nodup_cons] at hnodup
    rcases List.mem_cons.mp hmem with heq | hmem2
    · have hp1 : p.1 = k := by rw [← heq]
      have hp2 : p.2 = v := by rw [← heq]
      show (objAssign (objSet r p.1 p.2) t).lookup k = some v
      rw [lookup_objAssign_notin (objSet r p.1 p.2) t k
        (fun q hq hqk => hnodup.1 (hp1 ▸ hqk ▸ List.mem_map_of_mem Prod.fst hq))]
      rw [hp1, hp2]
      exact lookup_objSet_self r k v
    · show (objAssign (objSet r p.1 p.2) t).lookup k = some v
      exact ih (objSet r p.1 p.2) hmem2 hnodup.2

/-! ## Claim C9: caller attributes silently overwrite reserved fields -/

/-- C9: `createResource` merges caller attributes last via `Object.assign`, so
for any attribute map containing a reserved key the returned record carries the
caller's value for that key, with no collision check or error. -/
theorem claim_C9_attributes_overwrite (attrs : JsObject) (k : List Char) (v : JsValue)
    (genId now : List Char)
    (hres : k ∈ reservedResourceFields) (hmem : (k, v) ∈ attrs)
    (hnodup : (attrs.map Prod.fst).Nodup) :
    ∃ r, createResource (str "System.Account")
        (some (str "01955556-3cd2-7df2-b839-693fa6fbd505")) 1 none (some attrs)
        genId now = .ok r ∧ r.lookup k = some v := by
  refine ⟨objAssign
    (resourceRecordBase
      ⟨str "Resource#urn:pp:System.Account::01955556-3cd2-7df2-b839-693fa6fbd505",
       str "Resource#urn:pp:System.Account::01955556-3cd2-7df2-b839-693fa6fbd505"⟩
      (str "System.Account") (str "01955556-3cd2-7df2-b839-693fa6fbd505")
      (str "urn:pp:System.Account::01955556-3cd2-7df2-b839-693fa6fbd505") 1 now)
    attrs, ?_, ?_⟩
  · unfold createResource
    rw [if_neg (by decide), if_neg (by norm_num)]
    rfl
  · exact lookup_objAssign_mem _ attrs k v hmem hnodup

/-- Witness for C9: the caller's `PK` attribute wins over the derived key. -/
theorem claim_C9_attributes_overwrite_witness :
    ∃ r, createResource (str "System.Account")
        (some (str "01955556-3cd2-7df2-b839-693fa6fbd505")) 1 none
        (some [(str "PK", .vStr (str "boom"))])
        (str "01955557-3cd2-7df2-b839-693fa6fbd506") (str "2024-01-15T10:30:45.123Z") =
      .ok r ∧ r.lookup (str "PK") = some (.vStr (str "boom")) :=
  claim_C9_attributes_overwrite _ _ _ _ _ (by decide) (by decide) (by decide)

/-! ## Claim C7: schemaVersion validation -/

theorem except_bind_ok {α β : Type} (a : α) (f : α → Except String β) :
    (Except.ok a >>= f) = f a := rfl

theorem except_bind_error {α β : Type} (e : String) (f : α → Except String β) :
    ((Except.error e : Except String α) >>= f) = Except.error e := rfl

theorem createUrn_error_ne_sv {d rt rid : List Char} {e : String}
    (h : createUrn d rt rid = .error e) :
    e ≠ "SchemaVersion must be a positive number" := by
  unfold createUrn at h
  split at h
  · cases h; decide
  split at h
  · cases h; decide
  split at h
  · cases h; decide
  split at h
  · cases h; decide
  · exact Except.noConfusion h

theorem generateResourceKey_error {urn : List Char} {e : String}
    (h : generateResourceKey urn = .error e) : e = "Invalid URN format" := by
  unfold generateResourceKey at h
  split at h
  · cases h; rfl
  · exact Except.noConfusion h

/-- C7 counterexample: the claim says `createResource` throws on every
non-integer schemaVersion such as 1.5, but the source only checks
`schemaVersion < 1`, so 1.5 is accepted and stored in `_schemaVersion`. -/
theorem claim_C7_counterexample :
    ∃ r, createResource (str "System.Account") none ((3 : ℚ) / 2) none none
        (str "01955556-3cd2-7df2-b839-693fa6fbd505") (str "2024-01-15T10:30:45.123Z") =
      .ok r ∧ r.lookup (str "_schemaVersion") = some (.vNum ((3 : ℚ) / 2)) := by
  refine ⟨resourceRecordBase
    ⟨str "Resource#urn:pp:System.Account::01955556-3cd2-7df2-b839-693fa6fbd505",
     str "Resource#urn:pp:System.Account::01955556-3cd2-7df2-b839-693fa6fbd505"⟩
    (str "System.Account") (str "01955556-3cd2-7df2-b839-693fa6fbd505")
    (str "urn:pp:System.Account::01955556-3cd2-7df2-b839-693fa6fbd505") ((3 : ℚ) / 2)
    (str "2024-01-15T10:30:45.123Z"), ?_, ?_⟩
  · unfold createResource
    rw [if_neg (by decide), if_neg (by norm_num)]
    rfl
  · rfl

/-- C7 amended: with a non-empty resourceType, `createResource` raises the
schemaVersion error exactly when `schemaVersion < 1` — non-integer values ≥ 1
(for example 1.5) are accepted. -/
theorem claim_C7_amended (resourceType : List Char) (id : Option (List Char))
    (schemaVersion : ℚ) (accountUrn : Option (List Char)) (attributes : Option JsObject)
    (genId now : List Char) (hrt : trim resourceType ≠ []) :
    (createResource resourceType id schemaVersion accountUrn attributes genId now =
      .error "SchemaVersion must be a positive number") ↔ schemaVersion < 1 := by
  constructor
  · intro h
    by_contra hsv
    unfold createResource at h
    rw [if_neg (nonempty_cond hrt), if_neg hsv] at h
    split at h
    · exact absurd (Except.error.inj h) (by decide)
    cases hcu : createUrn (str "pp") (trim resourceType) (effectiveId id genId) with
    | error e =>
      rw [hcu] at h
      simp only [except_bind_error] at h
      exact createUrn_error_ne_sv hcu (Except.error.inj h)
    | ok u =>
      rw [hcu] at h
      simp only [except_bind_ok] at h
      split at h
      · exact absurd (Except.error.inj h) (by decide)
      cases hgk : generateResourceKey u with
      | error e =>
        rw [hgk] at h
        simp only [except_bind_error] at h
        rw [generateResourceKey_error hgk] at h
        exact absurd (Except.error.inj h) (by decide)
      | ok keys =>
        rw [hgk] at h
        simp only [except_bind_ok] at h
        split at h
        · split at h
          · simp only [except_bind_error] at h
            exact absurd (Except.error.inj h) (by decide)
          · split at h <;> exact Except.noConfusion h
        · split at h <;> exact Except.noConfusion h
  · intro h
    unfold createResource
    rw [if_neg (nonempty_cond hrt), if_pos h]

/-- Witness for C7's amended claim: schemaVersion 0 raises the schemaVersion
error, and 1.5 does not. -/
theorem claim_C7_amended_witness :
    (createResource (str "System.Account") none 0 none none
        (str "01955556-3cd2-7df2-b839-693fa6fbd505") (str "2024-01-15T10:30:45.123Z") =
      .error "SchemaVersion must be a positive number") ∧
    ¬(createResource (str "System.Account") none ((3 : ℚ) / 2) none none
        (str "01955556-3cd2-7df2-b839-693fa6fbd505") (str "2024-01-15T10:30:45.123Z") =
      .error "SchemaVersion must be a positive number") :=
  ⟨(claim_C7_amended _ _ _ _ _ _ _ (by decide)).mpr (by norm_num),
   fun h => absurd ((claim_C7_amended _ _ _ _ _ _ _ (by decide)).mp h) (by norm_num)⟩

/-! ## Lemmas about the fixed-width digit groups of the timestamp pattern -/

theorem isAsciiDigit_digitChar {d : Nat} (h : d < 10) : isAsciiDigit (digitChar d) = true := by
  interval_cases d <;> decide

theorem dval_digitChar {d : Nat} (h : d < 10) : dval (digitChar d) = d := by
  interval_cases d <;> decide

theorem dval_lt {c : Char} (h : isAsciiDigit c = true) : dval c < 10 := by
  unfold isAsciiDigit at h
  simp only [Bool.and_eq_true, decide_eq_true_eq] at h
  unfold dval
  omega

theorem digitChar_dval {c : Char} (h : isAsciiDigit c = true) : digitChar (dval c) = c := by
  unfold isAsciiDigit at h
  simp only [Bool.and_eq_true, decide_eq_true_eq] at h
  unfold digitChar dval
  rw [show 48 + (c.toNat - 48) = c.toNat by omega, Char.ofNat_toNat]

theorem parse2_sound {cs : List Char} {v : Nat} {r : List Char}
    (h : parse2 cs = some (v, r)) : v < 100 ∧ cs = pad2 v ++ r := by
  match cs with
  | [] | [_] => simp [parse2] at h
  | a :: b :: t =>
    simp only [parse2] at h
    split at h
    · rename_i hd
      simp only [Option.some.injEq, Prod.mk.injEq] at h
      obtain ⟨hv, hr⟩ := h
      subst hv hr
      simp only [Bool.and_eq_true] at hd
      obtain ⟨ha, hb⟩ := hd
      have la := dval_lt ha
      have lb := dval_lt hb
      refine ⟨by omega, ?_⟩
      unfold pad2
      rw [show (dval a * 10 + dval b) / 10 % 10 = dval a by omega,
        show (dval a * 10 + dval b) % 10 = dval b by omega,
        digitChar_dval ha, digitChar_dval hb]
      rfl
    · exact Option.noConfusion h

theorem parse2_complete {v : Nat} (r : List Char) (h : v < 100) :
    parse2 (pad2 v ++ r) = some (v, r) := by
  have h1 : v / 10 % 10 < 10 := Nat.mod_lt _ (by norm_num)
  have h2 : v % 10 < 10 := Nat.mod_lt _ (by norm_num)
  simp only [pad2, List.cons_append, List.nil_append, parse2,
    isAsciiDigit_digitChar h1, isAsciiDigit_digitChar h2, Bool.and_self, if_true,
    dval_digitChar h1, dval_digitChar h2, Option.some.injEq, Prod.mk.injEq]
  exact ⟨by omega, trivial⟩

theorem parse3_sound {cs : List Char} {v : Nat} {r : List Char}
    (h : parse3 cs = some (v, r)) : v < 1000 ∧ cs = pad3 v ++ r := by
  match cs with
  | [] | [_] | [_, _] => simp [parse3] at h
  | a :: b :: c :: t =>
    simp only [parse3] at h
    split at h
    · rename_i hd
      simp only [Option.some.injEq, Prod.mk.injEq] at h
      obtain ⟨hv, hr⟩ := h
      subst hv hr
      simp only [Bool.and_eq_true] at hd
      obtain ⟨⟨ha, hb⟩, hc⟩ := hd
      have la := dval_lt ha
      have lb := dval_lt hb
      have lc := dval_lt hc
      refine ⟨by omega, ?_⟩
      unfold pad3
      rw [show (dval a * 100 + dval b * 10 + dval c) / 100 % 10 = dval a by omega,
        show (dval a * 100 + dval b * 10 + dval c) / 10 % 10 = dval b by omega,
        show (dval a * 100 + dval b * 10 + dval c) % 10 = dval c by omega,
        digitChar_dval ha, digitChar_dval hb, digitChar_dval hc]
      rfl
    · exact Option.noConfusion h

theorem parse3_complete {v : Nat} (r : List Char) (h : v < 1000) :
    parse3 (pad3 v ++ r) = some (v, r) := by
  have h1 : v / 100 % 10 < 10 := Nat.mod_lt _ (by norm_num)
  have h2 : v / 10 % 10 < 10 := Nat.mod_lt _ (by norm_num)
  have h3 : v % 10 < 10 := Nat.mod_lt _ (by norm_num)
  simp only [pad3, List.cons_append, List.nil_append, parse3,
    isAsciiDigit_digitChar h1, isAsciiDigit_digitChar h2, isAsciiDigit_digitChar h3,
    Bool.and_self, if_true, dval_digitChar h1, dval_digitChar h2, dval_digitChar h3,
    Option.some.injEq, Prod.mk.injEq]
  exact ⟨by omega, trivial⟩

theorem parse4_sound {cs : List Char} {v : Nat} {r : List Char}
    (h : parse4 cs = some (v, r)) : v < 10000 ∧ cs = pad4 v ++ r := by
  match cs with
  | [] | [_] | [_, _] | [_, _, _] => simp [parse4] at h
  | a :: b :: c :: d :: t =>
    simp only [parse4] at h
    split at h
    · rename_i hd
      simp only [Option.some.injEq, Prod.mk.injEq] at h
      obtain ⟨hv, hr⟩ := h
      subst hv hr
      simp only [Bool.and_eq_true] at hd
      obtain ⟨⟨⟨ha, hb⟩, hc⟩, hdd⟩ := hd
      have la := dval_lt ha
      have lb := dval_lt hb
      have lc := dval_lt hc
      have ld := dval_lt hdd
      refine ⟨by omega, ?_⟩
      unfold pad4
      rw [show (dval a * 1000 + dval b * 100 + dval c * 10 + dval d) / 1000 % 10 = dval a
          by omega,
        show (dval a * 1000 + dval b * 100 + dval c * 10 + dval d) / 100 % 10 = dval b
          by omega,
        show (dval a * 1000 + dval b * 100 + dval c * 10 + dval d) / 10 % 10 = dval c
          by omega,
        show (dval a * 1000 + dval b * 100 + dval c * 10 + dval d) % 10 = dval d by omega,
        digitChar_dval ha, digitChar_dval hb, digitChar_dval hc, digitChar_dval hdd]
      rfl
    · exact Option.noConfusion h

theorem parse4_complete {v : Nat} (r : List Char) (h : v < 10000) :
    parse4 (pad4 v ++ r) = some (v, r) := by
  have h1 : v / 1000 % 10 < 10 := Nat.mod_lt _ (by norm_num)
  have h2 : v / 100 % 10 < 10 := Nat.mod_lt _ (by norm_num)
  have h3 : v / 10 % 10 < 10 := Nat.mod_lt _ (by norm_num)
  have h4 : v % 10 < 10 := Nat.mod_lt _ (by norm_num)
  simp only [pad4, List.cons_append, List.nil_append, parse4,
    isAsciiDigit_digitChar h1, isAsciiDigit_digitChar h2, isAsciiDigit_digitChar h3,
    isAsciiDigit_digitChar h4, Bool.and_self, if_true, dval_digitChar h1,
    dval_digitChar h2, dval_digitChar h3, dval_digitChar h4,
    Option.some.injEq, Prod.mk.injEq]
  exact ⟨by omega, trivial⟩

/-! ## Soundness and completeness of the timezone and full timestamp matchers -/

theorem tzParse_complete (tz : Option TzSuffix) (h : tzOffRange tz) :
    tzParse (tzRender tz) = some tz := by
  match tz with
  | none => rfl
  | some .utc => rfl
  | some (.offset neg oh om) =>
    obtain ⟨h1, h2⟩ := h
    have step : tzOffStage neg (parse2 (pad2 oh ++ ':' :: pad2 om)) =
        some (some (.offset neg oh om)) := by
      rw [parse2_complete (':' :: pad2 om) h1]
      show tzOffMin neg oh (parse2 (pad2 om)) = _
      rw [show (pad2 om : List Char) = pad2 om ++ [] by simp, parse2_complete [] h2]
      rfl
    cases neg
    · exact step
    · exact step

theorem tzOffStage_sound {neg : Bool} {r1 : List Char} {tz : Option TzSuffix}
    (h : tzOffStage neg (parse2 r1) = some tz) :
    ∃ oh om, tz = some (.offset neg oh om) ∧ oh < 100 ∧ om < 100 ∧
      r1 = pad2 oh ++ ':' :: pad2 om := by
  cases hp1 : parse2 r1 with
  | none => rw [hp1] at h; exact Option.noConfusion h
  | some p =>
    obtain ⟨oh, r2⟩ := p
    rw [hp1] at h
    simp only [tzOffStage] at h
    cases r2 with
    | nil => exact Option.noConfusion h
    | cons c r3 =>
      simp only [tzOffTail] at h
      split at h
      · rename_i hc
        subst hc
        cases hp2 : parse2 r3 with
        | none => rw [hp2] at h; exact Option.noConfusion h
        | some q =>
          obtain ⟨om, r4⟩ := q
          rw [hp2] at h
          simp only [tzOffMin] at h
          split at h
          · rename_i hr4
            subst hr4
            cases h
            obtain ⟨ho1, ho2⟩ := parse2_sound hp1
            obtain ⟨hm1, hm2⟩ := parse2_sound hp2
            rw [List.append_nil] at hm2
            subst hm2
            exact ⟨oh, om, rfl, ho1, hm1, ho2⟩
          · exact Option.noConfusion h
      · exact Option.noConfusion h

theorem tzParse_sound {r : List Char} {tz : Option TzSuffix} (h : tzParse r = some tz) :
    r = tzRender tz ∧ tzOffRange tz := by
  unfold tzParse at h
  split at h
  · cases h; exact ⟨rfl, trivial⟩
  · cases h; exact ⟨rfl, trivial⟩
  · rename_i r1
    obtain ⟨oh, om, htz, h1, h2, hr1⟩ := tzOffStage_sound h
    subst htz
    rw [hr1]
    exact ⟨rfl, h1, h2⟩
  · rename_i r1
    obtain ⟨oh, om, htz, h1, h2, hr1⟩ := tzOffStage_sound h
    subst htz
    rw [hr1]
    exact ⟨rfl, h1, h2⟩
  · exact Option.noConfusion h

theorem isoParse_complete {c : IsoComponents} (hr : inDigitRange c) :
    isoParse (isoRender c) = some c := by
  obtain ⟨y, mo, d, h, mi, s, ms, tz⟩ := c
  obtain ⟨hy, hmo, hd, hh, hmi, hs, hms, htz⟩ := hr
  unfold isoParse isoRender
  rw [parse4_complete _ hy]
  show isoMonthStage y (parse2 (pad2 mo ++ '-' :: (pad2 d ++ 'T' :: (pad2 h ++ ':' ::
    (pad2 mi ++ ':' :: (pad2 s ++ (msRender ms ++ tzRender tz))))))) = _
  rw [parse2_complete _ hmo]
  show isoDayStage y mo (parse2 (pad2 d ++ 'T' :: (pad2 h ++ ':' ::
    (pad2 mi ++ ':' :: (pad2 s ++ (msRender ms ++ tzRender tz)))))) = _
  rw [parse2_complete _ hd]
  show isoHourStage y mo d (parse2 (pad2 h ++ ':' ::
    (pad2 mi ++ ':' :: (pad2 s ++ (msRender ms ++ tzRender tz))))) = _
  rw [parse2_complete _ hh]
  show isoMinuteStage y mo d h (parse2 (pad2 mi ++ ':' ::
    (pad2 s ++ (msRender ms ++ tzRender tz)))) = _
  rw [parse2_complete _ hmi]
  show isoSecondsStage y mo d h mi (parse2 (pad2 s ++ (msRender ms ++ tzRender tz))) = _
  rw [parse2_complete _ hs]
  show isoAfterSeconds y mo d h mi s (msRender ms ++ tzRender tz) = _
  cases ms with
  | some m =>
    show isoMsStage y mo d h mi s (parse3 (pad3 m ++ tzRender tz)) = _
    rw [parse3_complete _ hms]
    show isoTzStage y mo d h mi s (some m) (tzParse (tzRender tz)) = _
    rw [tzParse_complete tz htz]
    rfl
  | none =>
    match tz with
    | none => rfl
    | some .utc => rfl
    | some (.offset neg oh om) =>
      cases neg
      · show isoTzStage y mo d h mi s none
          (tzParse (tzRender (some (.offset false oh om)))) = _
        rw [tzParse_complete _ htz]
        rfl
      · show isoTzStage y mo d h mi s none
          (tzParse (tzRender (some (.offset true oh om)))) = _
        rw [tzParse_complete _ htz]
        rfl

theorem isoParse_sound {cs : List Char} {c : IsoComponents} (h : isoParse cs = some c) :
    cs = isoRender c ∧ inDigitRange c := by
  unfold isoParse at h
  cases hp4 : parse4 cs with
  | none => rw [hp4] at h; exact Option.noConfusion h
  | some p =>
  obtain ⟨y, r0⟩ := p
  rw [hp4] at h
  simp only [isoYearStage] at h
  obtain ⟨hylt, hcs⟩ := parse4_sound hp4
  cases r0 with
  | nil => exact Option.noConfusion h
  | cons c1 r1 =>
  simp only [isoAfterYear] at h
  split at h
  case isFalse => exact Option.noConfusion h
  rename_i hc1
  subst hc1
  cases hp2 : parse2 r1 with
  | none => rw [hp2] at h; exact Option.noConfusion h
  | some q1 =>
  obtain ⟨mo, r1b⟩ := q1
  rw [hp2] at h
  simp only [isoMonthStage] at h
  obtain ⟨hmolt, hr1⟩ := parse2_sound hp2
  cases r1b with
  | nil => exact Option.noConfusion h
  | cons c2 r2 =>
  simp only [isoAfterMonth] at h
  split at h
  case isFalse => exact Option.noConfusion h
  rename_i hc2
  subst hc2
  cases hp3 : parse2 r2 with
  | none => rw [hp3] at h; exact Option.noConfusion h
  | some q2 =>
  obtain ⟨d, r2b⟩ := q2
  rw [hp3] at h
  simp only [isoDayStage] at h
  obtain ⟨hdlt, hr2⟩ := parse2_sound hp3
  cases r2b with
  | nil => exact Option.noConfusion h
  | cons c3 r3 =>
  simp only [isoAfterDay] at h
  split at h
  case isFalse => exact Option.noConfusion h
  rename_i hc3
  subst hc3
  cases hp4b : parse2 r3 with
  | none => rw [hp4b] at h; exact Option.noConfusion h
  | some q3 =>
  obtain ⟨hh, r3b⟩ := q3
  rw [hp4b] at h
  simp only [isoHourStage] at h
  obtain ⟨hhlt, hr3⟩ := parse2_sound hp4b
  cases r3b with
  | nil => exact Option.noConfusion h
  | cons c4 r4 =>
  simp only [isoAfterHour] at h
  split at h
  case isFalse => exact Option.noConfusion h
  rename_i hc4
  subst hc4
  cases hp5 : parse2 r4 with
  | none => rw [hp5] at h; exact Option.noConfusion h
  | some q4 =>
  obtain ⟨mi, r4b⟩ := q4
  rw [hp5] at h
  simp only [isoMinuteStage] at h
  obtain ⟨hmilt, hr4⟩ := parse2_sound hp5
  cases r4b with
  | nil => exact Option.noConfusion h
  | cons c5 r5 =>
  simp only [isoAfterMinute] at h
  split at h
  case isFalse => exact Option.noConfusion h
  rename_i hc5
  subst hc5
  cases hp6 : parse2 r5 with
  | none => rw [hp6] at h; exact Option.noConfusion h
  | some q5 =>
  obtain ⟨s, r6⟩ := q5
  rw [hp6] at h
  simp only [isoSecondsStage] at h
  obtain ⟨hslt, hr5⟩ := parse2_sound hp6
  cases r6 with
  | nil =>
    simp only [isoAfterSeconds, tzParse, isoTzStage] at h
    cases h
    subst hcs hr1 hr2 hr3 hr4 hr5
    refine ⟨by simp [isoRender, msRender, tzRender], ?_⟩
    exact ⟨hylt, hmolt, hdlt, hhlt, hmilt, hslt, trivial, trivial⟩
  | cons c6 r7 =>
  simp only [isoAfterSeconds] at h
  split at h
  · rename_i hc6
    subst hc6
    cases hp7 : parse3 r7 with
    | none => rw [hp7] at h; exact Option.noConfusion h
    | some q6 =>
    obtain ⟨m, r8⟩ := q6
    rw [hp7] at h
    simp only [isoMsStage] at h
    obtain ⟨hmlt, hr7⟩ := parse3_sound hp7
    cases htzp : tzParse r8 with
    | none => rw [htzp] at h; exact Option.noConfusion h
    | some tz =>
    rw [htzp] at h
    simp only [isoTzStage] at h
    cases h
    obtain ⟨hr8, hrange⟩ := tzParse_sound htzp
    subst hcs hr1 hr2 hr3 hr4 hr5 hr7 hr8
    refine ⟨by simp [isoRender, msRender], ?_⟩
    exact ⟨hylt, hmolt, hdlt, hhlt, hmilt, hslt, hmlt, hrange⟩
  · rename_i hc6
    cases htzp : tzParse (c6 :: r7) with
    | none => rw [htzp] at h; exact Option.noConfusion h
    | some tz =>
    rw [htzp] at h
    simp only [isoTzStage] at h
    cases h
    obtain ⟨hr6, hrange⟩ := tzParse_sound htzp
    subst hcs hr1 hr2 hr3 hr4 hr5
    rw [hr6]
    refine ⟨by simp [isoRender, msRender], ?_⟩
    exact ⟨hylt, hmolt, hdlt, hhlt, hmilt, hslt, trivial, hrange⟩

theorem isoRender_ne_nil (c : IsoComponents) : isoRender c ≠ [] := by
  simp [isoRender, pad4]

theorem isValidIso8601_true_iff (ts : List Char) :
    isValidIso8601 ts = true ↔
      ∃ c : IsoComponents, trim ts = isoRender c ∧ inDigitRange c ∧ jsDateValid c = true := by
  constructor
  · intro h
    unfold isValidIso8601 at h
    split at h
    · exact Bool.noConfusion h
    split at h
    · exact Bool.noConfusion h
    rename_i c heq
    obtain ⟨hrend, hrange⟩ := isoParse_sound heq
    exact ⟨c, hrend, hrange, h⟩
  · rintro ⟨c, hrend, hrange, hvalid⟩
    unfold isValidIso8601
    have hne : ¬((trim ts).isEmpty = true) := by
      rw [hrend, List.isEmpty_eq_true]
      exact isoRender_ne_nil c
    rw [if_neg hne, hrend, isoParse_complete hrange]
    exact hvalid

/-! ## Claim C6: the timestamp validator -/

/-- C6 counterexample: the claim requires a mandatory timezone suffix (a
string with no timezone "is rejected"), but the timezone group of
`ISO_8601_PATTERN` is optional, and the source's own doc comment lists the
suffix-free form as supported: the validator accepts it. -/
theorem claim_C6_counterexample :
    isValidIso8601 (str "2024-01-15T10:30:45") = true := by decide

/-- C6 amended: `isValidIso8601` never throws (it is a total boolean
function), and it returns true exactly when the trimmed input matches the
ISO-8601 shape date `T` time, with an optional three-digit millisecond part
and an OPTIONAL timezone suffix (`Z` or a numeric `±HH:MM` offset), whose
components denote a valid calendar date/time. -/
theorem claim_C6_isValidIso8601 (ts : List Char) :
    isValidIso8601 ts = true ↔
      ∃ c : IsoComponents, trim ts = isoRender c ∧ inDigitRange c ∧ jsDateValid c = true :=
  isValidIso8601_true_iff ts

/-- Witness for C6: the equivalence instantiated in both directions at
concrete inputs (accepting the canonical form, rejecting a bad calendar
date). -/
theorem claim_C6_isValidIso8601_witness :
    isValidIso8601 (str "2024-01-15T10:30:45.123Z") = true ∧
    isValidIso8601 (str "2024-13-45T25:70:99.999Z") = false :=
  ⟨(claim_C6_isValidIso8601 _).mpr
    ⟨⟨2024, 1, 15, 10, 30, 45, some 123, some .utc⟩, by decide, by decide, by decide⟩,
   by decide⟩

/-! ## The canonical `toISOString` output always passes the validator -/

theorem pad2_mem {n : Nat} {ch : Char} (h : ch ∈ pad2 n) :
    ∃ d, d < 10 ∧ ch = digitChar d := by
  simp only [pad2, List.mem_cons, List.not_mem_nil, or_false] at h
  rcases h with rfl | rfl
  · exact ⟨_, Nat.mod_lt _ (by norm_num), rfl⟩
  · exact ⟨_, Nat.mod_lt _ (by norm_num), rfl⟩

theorem pad3_mem {n : Nat} {ch : Char} (h : ch ∈ pad3 n) :
    ∃ d, d < 10 ∧ ch = digitChar d := by
  simp only [pad3, List.mem_cons, List.not_mem_nil, or_false] at h
  rcases h with rfl | rfl | rfl
  · exact ⟨_, Nat.mod_lt _ (by norm_num), rfl⟩
  · exact ⟨_, Nat.mod_lt _ (by norm_num), rfl⟩
  · exact ⟨_, Nat.mod_lt _ (by norm_num), rfl⟩

theorem pad4_mem {n : Nat} {ch : Char} (h : ch ∈ pad4 n) :
    ∃ d, d < 10 ∧ ch = digitChar d := by
  simp only [pad4, List.mem_cons, List.not_mem_nil, or_false] at h
  rcases h with rfl | rfl | rfl | rfl
  · exact ⟨_, Nat.mod_lt _ (by norm_num), rfl⟩
  · exact ⟨_, Nat.mod_lt _ (by norm_num), rfl⟩
  · exact ⟨_, Nat.mod_lt _ (by norm_num), rfl⟩
  · exact ⟨_, Nat.mod_lt _ (by norm_num), rfl⟩

theorem digitChar_not_space {d : Nat} (h : d < 10) : isJsSpace (digitChar d) = false := by
  interval_cases d <;> decide

theorem isoRender_not_space (c : IsoComponents) :
    ∀ ch ∈ isoRender c, isJsSpace ch = false := by
  intro ch hch
  have hpad2 : ∀ n, ch ∈ pad2 n → isJsSpace ch = false := by
    intro n hm
    obtain ⟨d, hd, rfl⟩ := pad2_mem hm
    exact digitChar_not_space hd
  have hpad3 : ∀ n, ch ∈ pad3 n → isJsSpace ch = false := by
    intro n hm
    obtain ⟨d, hd, rfl⟩ := pad3_mem hm
    exact digitChar_not_space hd
  have hpad4 : ∀ n, ch ∈ pad4 n → isJsSpace ch = false := by
    intro n hm
    obtain ⟨d, hd, rfl⟩ := pad4_mem hm
    exact digitChar_not_space hd
  unfold isoRender at hch
  rcases List.mem_append.mp hch with hm | hm
  · exact hpad4 _ hm
  rcases List.mem_cons.mp hm with rfl | hm
  · decide
  rcases List.mem_append.mp hm with hm | hm
  · exact hpad2 _ hm
  rcases List.mem_cons.mp hm with rfl | hm
  · decide
  rcases List.mem_append.mp hm with hm | hm
  · exact hpad2 _ hm
  rcases List.mem_cons.mp hm with rfl | hm
  · decide
  rcases List.mem_append.mp hm with hm | hm
  · exact hpad2 _ hm
  rcases List.mem_cons.mp hm with rfl | hm
  · decide
  rcases List.mem_append.mp hm with hm | hm
  · exact hpad2 _ hm
  rcases List.mem_cons.mp hm with rfl | hm
  · decide
  rcases List.mem_append.mp hm with hm | hm
  · exact hpad2 _ hm
  rcases List.mem_append.mp hm with hm | hm
  · match hms : c.millis with
    | none => rw [hms] at hm; simp [msRender] at hm
    | some m =>
      rw [hms] at hm
      rcases List.mem_cons.mp hm with rfl | hm
      · decide
      · exact hpad3 _ hm
  · match htz : c.tz with
    | none => rw [htz] at hm; simp [tzRender] at hm
    | some .utc =>
      rw [htz] at hm
      rcases List.mem_cons.mp hm with rfl | hm
      · decide
      · simp at hm
    | some (.offset neg oh om) =>
      rw [htz] at hm
      rcases List.mem_cons.mp hm with heq | hm
      · cases neg
        · rw [heq]; decide
        · rw [heq]; decide
      rcases List.mem_append.mp hm with hm | hm
      · exact hpad2 _ hm
      rcases List.mem_cons.mp hm with rfl | hm
      · decide
      · exact hpad2 _ hm

theorem daysInMonth_le {y m : Nat} : daysInMonth y m ≤ 31 := by
  unfold daysInMonth
  split
  · omega
  split
  · omega
  split <;> omega

theorem inDigitRange_of_valid {c : IsoComponents} (hv : jsDateValid c = true)
    (hy : c.year < 10000) (hms : msRange c.millis) : inDigitRange c := by
  unfold jsDateValid at hv
  simp only [Bool.and_eq_true, Bool.or_eq_true, decide_eq_true_eq, beq_iff_eq] at hv
  obtain ⟨⟨⟨⟨⟨⟨⟨h1, h2⟩, h3⟩, h4⟩, h5⟩, h6⟩, h7⟩, h8⟩ := hv
  have hday : c.day ≤ 31 := le_trans h4 daysInMonth_le
  have hhour : c.hour < 100 := by
    rcases h5 with h5 | ⟨h5, _⟩
    · omega
    · omega
  refine ⟨hy, by omega, by omega, hhour, by omega, by omega, hms, ?_⟩
  match htzc : c.tz with
  | none => trivial
  | some .utc => trivial
  | some (.offset neg oh om) =>
    rw [htzc] at h8
    simp only [decide_eq_true_eq, Bool.and_eq_true] at h8
    exact ⟨by omega, by omega⟩

/-! ## Claim C2: the createResource end-to-end scenario -/

/-- C2: `createResource` called with resourceType `System.Account`,
schemaVersion 1 and nothing else (the generated id and the current timestamp
threaded in as `genId`/`now`, assumed to satisfy their documented output
formats) returns a record with discriminant `Resource`, urn
`urn:pp:System.Account::{genId}`, `PK = SK = Resource#{urn}`, equal creation
and update timestamps, and timestamps accepted by `isValidIso8601`. -/
theorem claim_C2_createResource_endToEnd (genId now : List Char)
    (hg : uuidV7Match genId = true) (hn : isToIsoStringOutput now) :
    ∃ r, createResource (str "System.Account") none 1 none none genId now = .ok r ∧
      r.lookup (str "_recordType") = some (.vStr (str "Resource")) ∧
      r.lookup (str "urn") = some (.vStr (str "urn:pp:System.Account::" ++ genId)) ∧
      r.lookup (str "PK") =
        some (.vStr (str "Resource#" ++ (str "urn:pp:System.Account::" ++ genId))) ∧
      r.lookup (str "SK") =
        some (.vStr (str "Resource#" ++ (str "urn:pp:System.Account::" ++ genId))) ∧
      r.lookup (str "_createdAt") = some (.vStr now) ∧
      r.lookup (str "_updatedAt") = some (.vStr now) ∧
      isValidIso8601 now = true := by
  have hridt : trim genId = genId := uuid_trim hg
  have hparse : parseUrn (str "urn:pp:System.Account::" ++ genId) =
      .ok ⟨str "pp", str "System.Account", genId⟩ :=
    parseUrn_render (str "pp") (str "System.Account") genId (by decide) (by decide)
      (uuid_no_colon hg) (by decide) (by decide) hridt (by decide) (by decide)
      (uuid_ne_nil hg)
  have hval : validateUrn (str "urn:pp:System.Account::" ++ genId) = true :=
    validateUrn_of_parse hparse hg
  have hcu : createUrn (str "pp") (trim (str "System.Account")) genId =
      .ok (str "urn:pp:System.Account::" ++ genId) := by
    unfold createUrn
    rw [hridt]
    rw [if_neg (by decide), if_neg (by decide),
      if_neg (by simp [uuid_ne_nil hg]), if_neg (by simp [hg])]
    rfl
  have hkey : generateResourceKey (str "urn:pp:System.Account::" ++ genId) =
      .ok ⟨str "Resource#" ++ (str "urn:pp:System.Account::" ++ genId),
           str "Resource#" ++ (str "urn:pp:System.Account::" ++ genId)⟩ := by
    unfold generateResourceKey
    rw [hval]
    rfl
  have hmain : createResource (str "System.Account") none 1 none none genId now =
      .ok (resourceRecordBase
        ⟨str "Resource#" ++ (str "urn:pp:System.Account::" ++ genId),
         str "Resource#" ++ (str "urn:pp:System.Account::" ++ genId)⟩
        (str "System.Account") genId (str "urn:pp:System.Account::" ++ genId) 1 now) := by
    unfold createResource
    rw [if_neg (by decide), if_neg (by norm_num), if_neg (by simp [jsTruthy]),
      show effectiveId none genId = genId from rfl, hcu]
    simp only [except_bind_ok]
    rw [hval]
    simp only [Bool.not_true]
    rw [if_neg (by simp), hkey]
    simp only [except_bind_ok]
    rfl
  refine ⟨_, hmain, rfl, rfl, rfl, rfl, rfl, rfl, ?_⟩
  obtain ⟨y, mo, dd, hh, mi, ss, ms, hrend, hvalid, hy, hms⟩ := hn
  rw [hrend]
  refine (isValidIso8601_true_iff _).mpr
    ⟨⟨y, mo, dd, hh, mi, ss, some ms, some .utc⟩,
     trim_eq_self (isoRender_not_space _), ?_, hvalid⟩
  exact inDigitRange_of_valid hvalid hy hms

/-- Witness for C2 at a concrete generated id and clock value. -/
theorem claim_C2_createResource_endToEnd_witness :
    ∃ r, createResource (str "System.Account") none 1 none none
        (str "01955556-3cd2-7df2-b839-693fa6fbd505") (str "2024-01-15T10:30:45.123Z") =
      .ok r ∧
      r.lookup (str "_recordType") = some (.vStr (str "Resource")) ∧
      r.lookup (str "urn") = some (.vStr (str "urn:pp:System.Account::" ++
        str "01955556-3cd2-7df2-b839-693fa6fbd505")) ∧
      r.lookup (str "PK") = some (.vStr (str "Resource#" ++ (str "urn:pp:System.Account::" ++
        str "01955556-3cd2-7df2-b839-693fa6fbd505"))) ∧
      r.lookup (str "SK") = some (.vStr (str "Resource#" ++ (str "urn:pp:System.Account::" ++
        str "01955556-3cd2-7df2-b839-693fa6fbd505"))) ∧
      r.lookup (str "_createdAt") = some (.vStr (str "2024-01-15T10:30:45.123Z")) ∧
      r.lookup (str "_updatedAt") = some (.vStr (str "2024-01-15T10:30:45.123Z")) ∧
      isValidIso8601 (str "2024-01-15T10:30:45.123Z") = true :=
  claim_C2_createResource_endToEnd _ _ (by decide)
    ⟨2024, 1, 15, 10, 30, 45, 123, by decide, by decide, by decide, by decide⟩

end DynamoRelStore
